import Mathlib

/-!
Verification development for the face-enhancer web repository
(src/web/enhanced_server.py, src/web/fast_enhanced_server.py,
src/web/python_server.py).

The Python sources are shallowly embedded:
* request bodies, headers and payloads are `List Char` (the servers decode
  the raw bytes to `str` before any scanning; `utf-8, errors=ignore` in the
  enhanced/fast servers, `latin1` in the basic server);
* Python floats are modelled as `ℚ` (every constant in the sources is a
  decimal literal, and no claim depends on binary rounding);
* fallible operations return `Option`/`Except` (`none`/`.error` models a
  raised exception, caught exactly where the source catches it);
* the external pixel primitives (cv2 / PIL) are out of scope per the spec
  and are passed in as abstract operation records; the pipelines record a
  trace of which stage primitives they invoke.
-/

namespace FaceEnh

/-- Opening curly brace character (written via its code point). -/
def lbraceC : Char := Char.ofNat 123

/-- Closing curly brace character (written via its code point). -/
def rbraceC : Char := Char.ofNat 125

/-- Python whitespace for `str.strip()`. -/
def isPySpace (c : Char) : Bool :=
  c == ' ' || c == '\t' || c == '\n' || c == '\r' ||
  c == Char.ofNat 11 || c == Char.ofNat 12

/-- Python `s.strip()` on a character list. -/
def pyStrip (s : List Char) : List Char :=
  ((s.dropWhile isPySpace).reverse.dropWhile isPySpace).reverse

/-- Python slice `s[a:b]` for `0 ≤ a ≤ b` (the only shape the sources use). -/
def pySlice (s : List Char) (a b : Nat) : List Char :=
  (s.drop a).take (b - a)

/-- Helper for `pyFind`: scan `hay` from absolute index `i` for `sub`. -/
def findFromAux (sub : List Char) : List Char → Nat → Option Nat
  | [], i => if sub.isEmpty then some i else none
  | c :: t, i =>
      if sub.isPrefixOf (c :: t) then some i else findFromAux sub t (i + 1)

/-- Python `hay.find(sub, start)`; `none` models the `-1` result. -/
def pyFind (hay sub : List Char) (start : Nat) : Option Nat :=
  if start ≤ hay.length then findFromAux sub (hay.drop start) start else none

theorem findFromAux_some (sub : List Char) :
    ∀ (hay : List Char) (i j : Nat), findFromAux sub hay i = some j →
      i ≤ j ∧ j - i ≤ hay.length ∧ sub.isPrefixOf (hay.drop (j - i)) := by
  intro hay
  induction hay with
  | nil =>
      intro i j h
      simp only [findFromAux] at h
      by_cases hs : sub.isEmpty
      · simp [hs] at h
        subst h
        simp [List.isEmpty_iff] at hs
        simp [hs]
      · simp [hs] at h
  | cons c t ih =>
      intro i j h
      simp only [findFromAux] at h
      by_cases hp : sub.isPrefixOf (c :: t)
      · simp [hp] at h
        subst h
        simpa using hp
      · simp [hp] at h
        obtain ⟨h1, h2, h3⟩ := ih (i + 1) j h
        refine ⟨by omega, by simp; omega, ?_⟩
        have hd : (c :: t).drop (j - i) = t.drop (j - (i + 1)) := by
          have : j - i = (j - (i + 1)) + 1 := by omega
          simp [this]
        rw [hd]
        exact h3

theorem pyFind_some (hay sub : List Char) (start i : Nat)
    (h : pyFind hay sub start = some i) :
    start ≤ i ∧ i ≤ hay.length ∧ sub.isPrefixOf (hay.drop i) := by
  simp only [pyFind] at h
  by_cases hs : start ≤ hay.length
  · simp [hs] at h
    obtain ⟨h1, h2, h3⟩ := findFromAux_some sub _ _ _ h
    have hlen : (hay.drop start).length = hay.length - start := by simp
    have hdd : (hay.drop start).drop (i - start) = hay.drop i := by
      rw [List.drop_drop]
      congr 1
      omega
    rw [hdd] at h3
    exact ⟨h1, by omega, h3⟩
  · simp [hs] at h

theorem pyFind_some_nonempty (hay sub : List Char) (start i : Nat)
    (hne : sub ≠ []) (h : pyFind hay sub start = some i) :
    i + sub.length ≤ hay.length := by
  obtain ⟨h1, h2, h3⟩ := pyFind_some hay sub start i h
  have hpre : sub <+: hay.drop i := List.isPrefixOf_iff_prefix.mp h3
  have := hpre.length_le
  simp at this
  omega

/-- Fuel-bounded worker for `pySplit`; each step consumes at least
`sep.length ≥ 1` characters, so the fuel `pySplit` passes always
suffices. -/
def pySplitFuel (fuel : ℕ) (s sep : List Char) : List (List Char) :=
  match fuel with
  | 0 => [s]
  | fuel' + 1 =>
      match pyFind s sep 0 with
      | none => [s]
      | some i => pySlice s 0 i :: pySplitFuel fuel' (s.drop (i + sep.length)) sep

/-- Python `s.split(sep)` for nonempty `sep` (the sources only split on
nonempty literal separators; Python raises on an empty one). -/
def pySplit (s sep : List Char) : List (List Char) :=
  pySplitFuel (s.length + 1) s sep

/-- Fuel-bounded worker for `pyReplace`. -/
def pyReplaceFuel (fuel : ℕ) (s old new : List Char) : List Char :=
  match fuel with
  | 0 => s
  | fuel' + 1 =>
      match pyFind s old 0 with
      | none => s
      | some i =>
          pySlice s 0 i ++ new ++
            pyReplaceFuel fuel' (s.drop (i + old.length)) old new

/-- Python `s.replace(old, new)` for nonempty `old` (the only shape the
sources use). -/
def pyReplace (s old new : List Char) : List Char :=
  pyReplaceFuel (s.length + 1) s old new

/-- Python truncation `int(q)` (toward zero; `Int.div` truncates). -/
def pyTrunc (q : ℚ) : ℤ := q.num / (q.den : ℤ)

/-- Python `round(q, 1)`.  (CPython uses round-half-even on binary floats;
half-way ties never arise in any statement below, so round-half-up on ℚ is
an equivalent model here.) -/
def pyRound1 (q : ℚ) : ℚ := mkRat ⌊q * 10 + mkRat 1 2⌋ 10

/-- A decoded JSON value, as produced by `json.loads`. -/
inductive JVal : Type where
  | null : JVal
  | bool (b : Bool) : JVal
  | num (q : ℚ) : JVal
  | str (s : List Char) : JVal
  | arr (xs : List JVal) : JVal
  | obj (kvs : List (List Char × JVal)) : JVal

/-- Python truthiness of a JSON-decoded value. -/
def truthy : JVal → Bool
  | .null => false
  | .bool b => b
  | .num q => q != 0
  | .str s => !s.isEmpty
  | .arr xs => !xs.isEmpty
  | .obj kvs => !kvs.isEmpty

/-- Python `d.get(k, default)`; `none` models the `AttributeError` raised
when the decoded parameters value is not a dict.  For duplicate keys the
last binding wins, as in a Python dict literal. -/
def jget (v : JVal) (k : List Char) (d : JVal) : Option JVal :=
  match v with
  | .obj kvs =>
      some (match kvs.reverse.find? (fun p => p.1 == k) with
            | some p => p.2
            | none => d)
  | _ => none

/-- Python `v == "lit"` for a JSON-decoded value (non-strings compare
unequal to a string). -/
def JVal.eqStr (v : JVal) (lit : List Char) : Bool :=
  match v with
  | .str s => s == lit
  | _ => false

/-- Python `float(v)` on a JSON-decoded value; `none` models a raised
exception.  (Python would additionally accept numeric strings; every
statement below restricts attention to the documented numeric/boolean
parameter types, so that case never arises.) -/
def pyFloat : JVal → Option ℚ
  | .num q => some q
  | .bool b => some (if b then (1 : ℚ) else 0)
  | _ => none

/-- Decimal digits to a natural number. -/
def digitsToNat (ds : List Char) : Nat :=
  ds.foldl (fun a c => a * 10 + (c.toNat - 48)) 0

/-- Skip JSON whitespace. -/
def jws (s : List Char) : List Char :=
  s.dropWhile (fun c => c == ' ' || c == '\t' || c == '\n' || c == '\r')

/-- Parse the body of a JSON string (after the opening quote), handling the
simple escapes; `\uXXXX` is modelled as a parse failure (no statement below
touches it). -/
def jstrBody : List Char → Option (List Char × List Char)
  | [] => none
  | '"' :: t => some ([], t)
  | '\\' :: e :: t2 =>
      let d? : Option Char :=
        if e == '"' then some '"'
        else if e == '\\' then some '\\'
        else if e == '/' then some '/'
        else if e == 'n' then some '\n'
        else if e == 't' then some '\t'
        else if e == 'r' then some '\r'
        else if e == 'b' then some (Char.ofNat 8)
        else if e == 'f' then some (Char.ofNat 12)
        else none
      match d? with
      | none => none
      | some d =>
          match jstrBody t2 with
          | some (r, rest) => some (d :: r, rest)
          | none => none
  | '\\' :: [] => none
  | c :: t =>
      match jstrBody t with
      | some (r, rest) => some (c :: r, rest)
      | none => none

/-- Parse a JSON number into `ℚ`. -/
def jparseNum (s : List Char) : Option (ℚ × List Char) :=
  let sgn : Bool × List Char :=
    match s with
    | c :: t => if c == '-' then (true, t) else (false, s)
    | [] => (false, s)
  let (ds, s2) := sgn.2.span Char.isDigit
  if ds.isEmpty then none
  else
    let ip : ℚ := (digitsToNat ds : ℚ)
    let fracRes : Option (ℚ × List Char) :=
      match s2 with
      | c :: t =>
          if c == '.' then
            let (fs, s3) := t.span Char.isDigit
            if fs.isEmpty then none
            else some (ip + mkRat (digitsToNat fs) (10 ^ fs.length), s3)
          else some (ip, s2)
      | [] => some (ip, s2)
    match fracRes with
    | none => none
    | some (m, s4) =>
        let expRes : Option (ℚ × List Char) :=
          match s4 with
          | c :: t =>
              if c == 'e' || c == 'E' then
                let st : Bool × List Char :=
                  match t with
                  | c2 :: t3 =>
                      if c2 == '-' then (true, t3)
                      else if c2 == '+' then (false, t3)
                      else (false, t)
                  | [] => (false, t)
                let (es, s5) := st.2.span Char.isDigit
                if es.isEmpty then none
                else
                  let e := digitsToNat es
                  some ((if st.1 then m / (10 : ℚ) ^ e else m * (10 : ℚ) ^ e), s5)
              else some (m, s4)
          | [] => some (m, s4)
        match expRes with
        | none => none
        | some (v, s6) => some ((if sgn.1 then -v else v), s6)

/-- Fuel-bounded JSON parser (a single structurally recursive worker; the
`mode` selects the grammar production: 0 = value, 1 = object body after
the opening brace, 2 = object members, 3 = array body after the opening
bracket, 4 = array items).  The fuel `jsonLoads` passes always suffices,
since every recursive call consumes at least one character. -/
def jparseGo (fuel : ℕ) (mode : ℕ) (accM : List (List Char × JVal))
    (accI : List JVal) (s : List Char) : Option (JVal × List Char) :=
  match fuel with
  | 0 => none
  | fuel' + 1 =>
      if mode == 0 then
        match jws s with
        | [] => none
        | c :: t =>
            if c == '"' then
              match jstrBody t with
              | some (cs, rest) => some (.str cs, rest)
              | none => none
            else if c == lbraceC then jparseGo fuel' 1 [] [] t
            else if c == '[' then jparseGo fuel' 3 [] [] t
            else if c == 't' then
              if ("rue".data).isPrefixOf t then some (.bool true, t.drop 3)
              else none
            else if c == 'f' then
              if ("alse".data).isPrefixOf t then some (.bool false, t.drop 4)
              else none
            else if c == 'n' then
              if ("ull".data).isPrefixOf t then some (.null, t.drop 3) else none
            else (jparseNum (c :: t)).map (fun p => (JVal.num p.1, p.2))
      else if mode == 1 then
        match jws s with
        | [] => none
        | c :: t =>
            if c == rbraceC then some (.obj [], t)
            else jparseGo fuel' 2 [] [] (c :: t)
      else if mode == 2 then
        match jws s with
        | [] => none
        | c :: t =>
            if c == '"' then
              match jstrBody t with
              | none => none
              | some (k, rest) =>
                  match jws rest with
                  | ':' :: r2 =>
                      match jparseGo fuel' 0 [] [] r2 with
                      | none => none
                      | some (v, r3) =>
                          match jws r3 with
                          | [] => none
                          | c2 :: r4 =>
                              if c2 == ',' then
                                jparseGo fuel' 2 (accM ++ [(k, v)]) [] r4
                              else if c2 == rbraceC then
                                some (.obj (accM ++ [(k, v)]), r4)
                              else none
                  | _ => none
            else none
      else if mode == 3 then
        match jws s with
        | [] => none
        | c :: t =>
            if c == ']' then some (.arr [], t)
            else jparseGo fuel' 4 [] [] (c :: t)
      else
        match jparseGo fuel' 0 [] [] s with
        | none => none
        | some (v, r) =>
            match jws r with
            | [] => none
            | c :: r2 =>
                if c == ',' then jparseGo fuel' 4 [] (accI ++ [v]) r2
                else if c == ']' then some (.arr (accI ++ [v]), r2)
                else none

/-- Parse one JSON value. -/
def jparseVal (fuel : ℕ) (s : List Char) : Option (JVal × List Char) :=
  jparseGo fuel 0 [] [] s

/-- Model of Python `json.loads`: parse one value and require only
whitespace to remain (otherwise `json.loads` raises "Extra data"). -/
def jsonLoads (s : List Char) : Option JVal :=
  match jparseVal (s.length + 1) s with
  | some (v, rest) => if (jws rest).isEmpty then some v else none
  | none => none

/-! ### String constants used by the servers -/

/-- Inline image marker `data:image/`. -/
def k_dataImage : List Char := "data:image/".data

/-- CRLF line terminator. -/
def crlfL : List Char := "\r\n".data

/-- Bare LF line terminator. -/
def lfL : List Char := "\n".data

/-- Multipart boundary marker the scanners look for. -/
def dashes6 : List Char := "------".data

/-- Header/body separator of a form part. -/
def crlf2 : List Char := "\r\n\r\n".data

/-- End-of-part boundary the scanners look for. -/
def crlfDashes : List Char := "\r\n------".data

/-- Disposition key of the image field. -/
def k_nameImage : List Char := "name=\"image\"".data

/-- Disposition key of the parameters field. -/
def k_nameParameters : List Char := "name=\"parameters\"".data

/-- Disposition header used by the basic server's part scan. -/
def k_contentDisp : List Char := "Content-Disposition: form-data".data

/-- Multipart content-type header used by the basic server. -/
def k_ctMultipart : List Char := "Content-Type: multipart/form-data".data

/-- Boundary attribute key of the multipart content type. -/
def k_boundaryEq : List Char := "boundary=".data

/-- Data-URL head the responses prepend to the base64 JPEG body. -/
def dataJpegHead : List Char := "data:image/jpeg;base64,".data

/-! ### Abstract pixel primitives (external collaborators per the spec) -/

/-- cv2 interpolation kernels the sources select between. -/
inductive Interp : Type where
  | lanczos4 : Interp
  | cubic : Interp
  | linear : Interp
  deriving DecidableEq

/-- PIL resampling kernels the sources select between. -/
inductive PilInterp : Type where
  | lanczos : PilInterp
  | bilinear : PilInterp
  deriving DecidableEq

/-- The fixed convolution kernels of the sources: the enhanced server's
edge kernel `[[-1,-1,-1],[-1,9,-1],[-1,-1,-1]] * 0.1` and the fast
server's kernel `[[0,-1,0],[-1,5,-1],[0,-1,0]] * 0.2`. -/
inductive Kern : Type where
  | edgeEnhanceTenth : Kern
  | fastSharpenFifth : Kern
  deriving DecidableEq

/-- One pipeline stage invocation, recorded in the run trace. -/
inductive Tag : Type where
  | upscale (ip : Interp) : Tag
  | denoise : Tag
  | sharpen : Tag
  | contrastStage : Tag
  | clahe : Tag
  | faceStage : Tag
  | colorStage : Tag
  | polish : Tag
  deriving DecidableEq

/-- The cv2 operations the pipelines invoke, as an abstract capability
record over an abstract frame type `F` (the pipeline specifies which
primitives to invoke, in what order, with what parameters — not how each
is implemented). -/
structure CVPrims (F : Type) where
  width : F → ℕ
  height : F → ℕ
  /-- `base64.b64decode(data.split(',')[1])` + `cv2.imdecode`; `none`
  models both a raised exception and a `None` decode result. -/
  decode : List Char → Option F
  resize : F → ℤ → ℤ → Interp → F
  bilateralFilter : F → ℤ → ℚ → ℚ → F
  gaussianBlur : F → ℤ → ℤ → ℚ → F
  addWeighted : F → ℚ → F → ℚ → ℚ → F
  filter2D : F → Kern → F
  convertScaleAbs : F → ℚ → ℚ → F
  /-- Stage 5 block: BGR→LAB split, CLAHE(2.0, (4,4)) on L, merge, LAB→BGR. -/
  labClahe : F → F
  /-- Stage 7 block: BGR→HSV, saturation ×1.15, value ×1.05, HSV→BGR. -/
  hsvColorBoost : F → F
  /-- `cv2.imencode('.jpg', ·, quality)` + `base64.b64encode`: the base64
  body of the output payload. -/
  encodeJpeg : F → ℕ → List Char

/-- A detected face bounding box `(x, y, w, h)`. -/
abbrev Rect : Type := ℕ × ℕ × ℕ × ℕ

/-- The face-detection/per-face operations of `enhance_faces`, as abstract
fallible primitives: `.error` models a raised exception at that point. -/
structure FacePrims (F : Type) where
  /-- Cascade loads, grayscale conversion and
  `detectMultiScale(gray, 1.2, 3, minSize=(50,50))`. -/
  detectFaces : F → Except Unit (List Rect)
  /-- One iteration of the per-face loop: padded extraction,
  `bilateralFilter(9,40,40)` skin smoothing, eye detection + 40% sharpen
  blend, lower-40% mouth `detailEnhance`, elliptical-mask composite back
  into the running frame. -/
  processFace : F → Rect → Except Unit F

/-- The PIL operations of the fallback path. -/
structure PILPrims (P : Type) where
  /-- `base64.b64decode(data.split(',')[1])` + `Image.open`. -/
  decode : List Char → Option P
  width : P → ℕ
  height : P → ℕ
  resize : P → ℤ → ℤ → PilInterp → P
  /-- `ImageEnhance.Contrast(·).enhance`. -/
  contrastEnh : P → ℚ → P
  /-- `ImageEnhance.Sharpness(·).enhance`. -/
  sharpnessEnh : P → ℚ → P
  /-- `ImageFilter.UnsharpMask(radius, percent, threshold)`. -/
  unsharpMask : P → ℕ → ℕ → ℕ → P
  /-- `ImageFilter.DETAIL`. -/
  detail : P → P
  /-- `save(format=JPEG, quality)` + `base64.b64encode`. -/
  encodeJpeg : P → ℕ → List Char

/-- The parts of an enhancement result record that the claims inspect. -/
structure EnhRes : Type where
  success : Bool
  enhancedImage : Option (List Char)
  methodName : List Char
  /-- The `scale_factor` metric of the result. -/
  scaleMetric : Option ℚ
  /-- The `faces_detected` processing detail (absent in PIL/fast results). -/
  facesDetected : Option ℕ
  errorMsg : Option (List Char)
  deriving DecidableEq

/-- An HTTP response of an enhance handler: status code plus result. -/
structure Response : Type where
  status : ℕ
  res : EnhRes
  deriving DecidableEq

/-! ### FaceRegionEnhancer (`enhance_faces`, enhanced_server.py 304-381) -/

/-- The sequential per-face loop: each iteration reads and writes the
running `enhanced` buffer; the first raised exception aborts the loop. -/
def processFaces {F : Type} (fp : FacePrims F) : List Rect → F → Except Unit F
  | [], e => .ok e
  | r :: rs, e =>
      match fp.processFace e r with
      | .error u => .error u
      | .ok e2 => processFaces fp rs e2

/-- `enhance_faces`: the whole body is wrapped in `try/except`, the except
arm returning the input frame.  `st` models the handler's incidental
`self._faces_detected` attribute (`none` = never assigned, read later via
`getattr(self, '_faces_detected', 0)`); the assignment
`self._faces_detected = faces_count` happens after detection and before
the per-face loop, so a loop failure leaves the count stored. -/
def enhance_faces {F : Type} (fp : FacePrims F) (st : Option ℕ) (img : F) :
    F × Option ℕ :=
  match fp.detectFaces img with
  | .error _ => (img, st)
  | .ok faces =>
      let st2 : Option ℕ := some faces.length
      match processFaces fp faces img with
      | .error _ => (img, st2)
      | .ok out => (out, st2)

/-- `getattr(self, '_faces_detected', 0)`. -/
def reportedFaces (st : Option ℕ) : ℕ := st.getD 0

/-! ### Primary pipeline (`apply_real_enhancement`, enhanced_server.py 200-302) -/

/-- `apply_real_enhancement`: the staged enhancement pipeline.  Returns the
final frame, the face-count state after the run, and the trace of stage
primitives invoked; `none` models an exception raised by the `float(...)`
parameter conversions or a `parameters.get` on a non-dict value (caught by
the caller, which then falls back to PIL). -/
def apply_real_enhancement {F : Type} (cv : CVPrims F) (fp : FacePrims F)
    (st : Option ℕ) (image : F) (params : JVal) (mode : JVal) :
    Option (F × Option ℕ × List Tag) := do
  -- `enhanced = image.copy()` is the identity in this value-semantics model
  let v1 ← jget params ("scaleFactor".data) (.num 2)
  let sf ← pyFloat v1
  let v2 ← jget params ("sharpenStrength".data) (.num (mkRat 6 5))
  let sh ← pyFloat v2
  let v3 ← jget params ("noiseReduction".data) (.num 6)
  let nr ← pyFloat v3
  let v4 ← jget params ("contrast".data) (.num (mkRat 23 20))
  let ct ← pyFloat v4
  let v5 ← jget params ("blendWeight".data) (.num (mkRat 4 5))
  let _bw ← pyFloat v5
  -- 1. SUPER RESOLUTION UPSCALING (skipped iff scale_factor ≤ 1.0)
  let s1 : F × List Tag :=
    if sf > 1 then
      let nw := pyTrunc ((cv.width image : ℚ) * sf)
      let nh := pyTrunc ((cv.height image : ℚ) * sf)
      let ip := if mode.eqStr ("gfpgan".data) then Interp.lanczos4 else Interp.cubic
      (cv.resize image nw nh ip, [Tag.upscale ip])
    else (image, [])
  -- 2. OPTIMIZED NOISE REDUCTION (skipped iff noise_reduction ≤ 0)
  let s2 : F × List Tag :=
    if nr > 0 then (cv.bilateralFilter s1.1 7 (nr * 6) (nr * 6), [Tag.denoise])
    else (s1.1, [])
  -- 3. INTELLIGENT SHARPENING (skipped iff sharpen_strength ≤ 0)
  let s3 : F × List Tag :=
    if sh > 0 then
      let g := cv.gaussianBlur s2.1 0 0 2
      let u := cv.addWeighted s2.1 (1 + sh) g (-sh) 0
      let k := cv.filter2D u Kern.edgeEnhanceTenth
      (cv.addWeighted u (mkRat 4 5) k (mkRat 1 5) 0, [Tag.sharpen])
    else (s2.1, [])
  -- 4. CONTRAST AND BRIGHTNESS ENHANCEMENT (unconditional in the source)
  let s4 := cv.convertScaleAbs s3.1 ct 15
  -- 5. OPTIMIZED HISTOGRAM EQUALIZATION (unconditional)
  let s5 := cv.labClahe s4
  -- 6. FACE-SPECIFIC ENHANCEMENT
  let fe ← jget params ("enableFaceEnhancement".data) (.bool true)
  let s6 : F × Option ℕ × List Tag :=
    if (mode.eqStr ("gfpgan".data) || mode.eqStr ("hybrid".data)) && truthy fe then
      let r := enhance_faces fp st s5
      (r.1, r.2, [Tag.faceStage])
    else (s5, st, [])
  -- 7. COLOR ENHANCEMENT (unconditional)
  let s7 := cv.hsvColorBoost s6.1
  -- 8. OPTIMIZED FINAL POLISH (unconditional)
  let pol := cv.gaussianBlur s7 3 3 (mkRat 3 10)
  let s8 := cv.addWeighted s7 (mkRat 19 20) pol (mkRat 1 20) 0
  some (s8, s6.2.1,
    s1.2 ++ s2.2 ++ s3.2 ++ [Tag.contrastStage, Tag.clahe] ++ s6.2.2 ++
      [Tag.colorStage, Tag.polish])

/-! ### Fast pipeline (`apply_fast_enhancement`, fast_enhanced_server.py 199-250) -/

/-- `apply_fast_enhancement`: the speed-optimized pipeline of the fast
server.  Parameters are clamped with `min`; noise reduction is always
skipped; the contrast stage is guarded by `contrast > 1.0`. -/
def apply_fast_enhancement {F : Type} (cv : CVPrims F) (image : F)
    (params : JVal) : Option (F × List Tag) := do
  let v1 ← jget params ("scaleFactor".data) (.num 2)
  let sfr ← pyFloat v1
  let sf := min sfr (mkRat 5 2)
  let v2 ← jget params ("sharpenStrength".data) (.num 1)
  let shr ← pyFloat v2
  let sh := min shr (mkRat 3 2)
  let v3 ← jget params ("contrast".data) (.num (mkRat 11 10))
  let ctr ← pyFloat v3
  let ct := min ctr (mkRat 13 10)
  -- 1. FAST UPSCALING (if needed)
  let s1 : F × List Tag :=
    if sf > 1 then
      (cv.resize image (pyTrunc ((cv.width image : ℚ) * sf))
        (pyTrunc ((cv.height image : ℚ) * sf)) Interp.linear,
       [Tag.upscale Interp.linear])
    else (image, [])
  -- 2. MINIMAL NOISE REDUCTION (always skipped in the source)
  -- 3. FAST SHARPENING
  let s3 : F × List Tag :=
    if sh > 0 then (cv.filter2D s1.1 Kern.fastSharpenFifth, [Tag.sharpen])
    else (s1.1, [])
  -- 4. QUICK CONTRAST ENHANCEMENT (guarded by contrast > 1.0)
  let s4 : F × List Tag :=
    if ct > 1 then (cv.convertScaleAbs s3.1 ct 10, [Tag.contrastStage])
    else (s3.1, [])
  -- 5. FAST COLOR ENHANCEMENT (unconditional slight brightness)
  let s5 := cv.convertScaleAbs s4.1 1 5
  some (s5, s1.2 ++ s3.2 ++ s4.2 ++ [Tag.colorStage])

/-! ### Fallback PIL enhancements and the tier-1 wrappers -/

/-- Failure result of the PIL fallback (`except` arm, lines 434-439). -/
def pilFailRes : EnhRes :=
  { success := false, enhancedImage := none, methodName := []
    scaleMetric := none, facesDetected := none
    errorMsg := some ("Enhancement failed".data) }

/-- `basic_pil_enhancement` (enhanced_server.py 383-439).  Note that the
reported `scale_factor` metric is the raw input parameter, and the PIL
defaults (1.5, 1.2) differ from the OpenCV-path defaults. -/
def basic_pil_enhancement {P : Type} (pil : PILPrims P) (imageData : List Char)
    (params : JVal) : EnhRes :=
  match pil.decode imageData with
  | none => pilFailRes
  | some p =>
      match (do
        let v1 ← jget params ("scaleFactor".data) (.num 2)
        let sf ← pyFloat v1
        let v2 ← jget params ("sharpenStrength".data) (.num (mkRat 3 2))
        let sh ← pyFloat v2
        let v3 ← jget params ("contrast".data) (.num (mkRat 6 5))
        let ct ← pyFloat v3
        some (sf, sh, ct) : Option (ℚ × ℚ × ℚ)) with
      | none => pilFailRes
      | some (sf, sh, ct) =>
          let e1 :=
            if sf > 1 then
              pil.resize p (pyTrunc ((pil.width p : ℚ) * sf))
                (pyTrunc ((pil.height p : ℚ) * sf)) PilInterp.lanczos
            else p
          let e2 := pil.contrastEnh e1 ct
          let e3 := pil.sharpnessEnh e2 sh
          let e4 := pil.unsharpMask e3 2 150 3
          let e5 := pil.detail e4
          { success := true
            enhancedImage := some (dataJpegHead ++ pil.encodeJpeg e5 95)
            methodName := "PIL Enhanced Processing".data
            scaleMetric := some sf
            facesDetected := none
            errorMsg := none }

/-- Failure result of the fast PIL fallback (fast server, lines 301-306). -/
def fastPilFailRes : EnhRes :=
  { success := false, enhancedImage := none, methodName := []
    scaleMetric := none, facesDetected := none
    errorMsg := some ("Fast enhancement failed".data) }

/-- `basic_pil_enhancement` of the fast server (fast_enhanced_server.py
252-306): clamped parameters, conditional contrast/sharpness, BILINEAR
resize, quality 85; the `scale_factor` metric is the clamped raw input. -/
def fast_basic_pil_enhancement {P : Type} (pil : PILPrims P)
    (imageData : List Char) (params : JVal) : EnhRes :=
  match pil.decode imageData with
  | none => fastPilFailRes
  | some p =>
      match (do
        let v1 ← jget params ("scaleFactor".data) (.num 2)
        let sfr ← pyFloat v1
        let v2 ← jget params ("sharpenStrength".data) (.num (mkRat 6 5))
        let shr ← pyFloat v2
        let v3 ← jget params ("contrast".data) (.num (mkRat 11 10))
        let ctr ← pyFloat v3
        some (min sfr 2, min shr (mkRat 3 2), min ctr (mkRat 13 10)) :
          Option (ℚ × ℚ × ℚ)) with
      | none => fastPilFailRes
      | some (sf, sh, ct) =>
          let e1 :=
            if sf > 1 then
              pil.resize p (pyTrunc ((pil.width p : ℚ) * sf))
                (pyTrunc ((pil.height p : ℚ) * sf)) PilInterp.bilinear
            else p
          let e2 := if ct > 1 then pil.contrastEnh e1 ct else e1
          let e3 := if sh > 1 then pil.sharpnessEnh e2 sh else e2
          { success := true
            enhancedImage := some (dataJpegHead ++ pil.encodeJpeg e3 85)
            methodName := "Fast PIL Processing".data
            scaleMetric := some sf
            facesDetected := none
            errorMsg := none }

/-- `enhance_image_opencv` (enhanced_server.py 142-198): decode, run the
primary pipeline, encode at quality 95 and build the result; any raised
exception (decode failure, non-dict parameters, non-numeric floats, a
non-string mode at the `mode.upper()` call) falls back to the PIL path.
Returns the result together with the `_faces_detected` state after the
request. -/
def enhance_image_opencv {F P : Type} (cv : CVPrims F) (pil : PILPrims P)
    (fp : FacePrims F) (opencvAvailable : Bool) (st : Option ℕ)
    (imageData : List Char) (params : JVal) : EnhRes × Option ℕ :=
  if !opencvAvailable then (basic_pil_enhancement pil imageData params, st)
  else
    match cv.decode imageData with
    | none => (basic_pil_enhancement pil imageData params, st)
    | some img0 =>
        match jget params ("mode".data) (.str ("gfpgan".data)) with
        | none => (basic_pil_enhancement pil imageData params, st)
        | some mode =>
            match apply_real_enhancement cv fp st img0 params mode with
            | none => (basic_pil_enhancement pil imageData params, st)
            | some (f, st2, _tr) =>
                match mode with
                | .str m =>
                    ({ success := true
                       enhancedImage := some (dataJpegHead ++ cv.encodeJpeg f 95)
                       methodName :=
                         "OpenCV + ".data ++ m.map Char.toUpper ++
                           " Enhancement".data
                       scaleMetric :=
                         some (pyRound1 ((cv.width f : ℚ) / (cv.width img0 : ℚ)))
                       facesDetected := some (reportedFaces st2)
                       errorMsg := none }, st2)
                | _ => (basic_pil_enhancement pil imageData params, st2)

/-- `fast_enhance_image` (fast_enhanced_server.py 143-197): decode, run the
fast pipeline, encode at quality 90; exceptions fall back to the fast PIL
path. -/
def fast_enhance_image {F P : Type} (cv : CVPrims F) (pil : PILPrims P)
    (opencvAvailable : Bool) (imageData : List Char) (params : JVal) : EnhRes :=
  if !opencvAvailable then fast_basic_pil_enhancement pil imageData params
  else
    match cv.decode imageData with
    | none => fast_basic_pil_enhancement pil imageData params
    | some img0 =>
        match apply_fast_enhancement cv img0 params with
        | none => fast_basic_pil_enhancement pil imageData params
        | some (f, _tr) =>
            { success := true
              enhancedImage := some (dataJpegHead ++ cv.encodeJpeg f 90)
              methodName := "Ultra-Fast OpenCV Enhancement".data
              scaleMetric :=
                some (pyRound1 ((cv.width f : ℚ) / (cv.width img0 : ℚ)))
              facesDetected := none
              errorMsg := none }

/-! ### Request ingestion (`parse_multipart_data` of the three servers) -/

/-- Python truthiness of the `image_data` variable
(`None` and the empty string are both falsy). -/
def truthyOpt : Option (List Char) → Bool
  | none => false
  | some l => !l.isEmpty

/-- Method 1 of both `parse_multipart_data` scanners (enhanced_server.py
449-468, fast_enhanced_server.py 317-331, identical code): locate a
`data:image/` marker; end at the first `\r\n`, else — only when no `\r\n`
exists at all after the marker — at the first `\n`, else at the next
`------` run, else at end of input; strip the slice. -/
def imageMethod1 (s : List Char) : Option (List Char) :=
  match pyFind s k_dataImage 0 with
  | none => none
  | some i =>
      let e : ℕ :=
        match pyFind s crlfL i with
        | some e => e
        | none =>
            match pyFind s lfL i with
            | some e => e
            | none =>
                match pyFind s dashes6 i with
                | some b => b
                | none => s.length
      some (pyStrip (pySlice s i e))

/-- Method 2 (enhanced_server.py 470-484): the `name="image"` form field;
value between the first `\r\n\r\n` after the disposition and the next
`\r\n------`, accepted only when it starts with `data:image/`. -/
def imageMethod2 (s : List Char) : Option (List Char) :=
  match pyFind s k_nameImage 0 with
  | none => none
  | some fs =>
      match pyFind s crlf2 fs with
      | none => none
      | some d0 =>
          let ds := d0 + 4
          match pyFind s crlfDashes ds with
          | none => none
          | some be =>
              let pot := pyStrip (pySlice s ds be)
              if k_dataImage.isPrefixOf pot then some pot else none

/-- The balanced-brace scan of the legacy parameter extraction
(enhanced_server.py 519-531): returns `json_end` (`start` itself when the
loop ends without a break, as in the source). -/
def braceScan : List Char → ℕ → ℤ → Bool → Option ℕ
  | [], _, _, _ => none
  | c :: t, i, bc, inj =>
      if c == lbraceC then braceScan t (i + 1) (bc + 1) true
      else if c == rbraceC then
        if bc - 1 == 0 && inj then some (i + 1)
        else braceScan t (i + 1) (bc - 1) inj
      else braceScan t (i + 1) bc inj

/-- `json_end` of the legacy brace scan started at `start`. -/
def braceEnd (s : List Char) (start : ℕ) : ℕ :=
  (braceScan (s.drop start) start 0 false).getD start

/-- Legacy anchor 1: `{"mode"`. -/
def legacyPat1 : List Char := "\x7b\"mode\"".data

/-- Legacy anchor 2: `{"scaleFactor"`. -/
def legacyPat2 : List Char := "\x7b\"scaleFactor\"".data

/-- Legacy anchor 3: `{\"mode\"` (escaped-quote variant). -/
def legacyPat3 : List Char := "\x7b\\\"mode\\\"".data

/-- Legacy anchor 4: `{\"scaleFactor\"` (escaped-quote variant). -/
def legacyPat4 : List Char := "\x7b\\\"scaleFactor\\\"".data

/-- One legacy pattern attempt (enhanced_server.py 515-542): find the
anchor, brace-scan to the balanced end, unescape `\"`, decode. -/
def legacyTry (s pat : List Char) : Option JVal :=
  match pyFind s pat 0 with
  | none => none
  | some i =>
      let e := braceEnd s i
      jsonLoads (pyReplace (pySlice s i e) ("\\\"".data) ("\"".data))

/-- The legacy fallback loop over the four anchors, in source order; the
first successful decode wins (even a falsy one — the source `break`s). -/
def legacyScan (s : List Char) : JVal :=
  match legacyTry s legacyPat1 with
  | some v => v
  | none =>
      match legacyTry s legacyPat2 with
      | some v => v
      | none =>
          match legacyTry s legacyPat3 with
          | some v => v
          | none =>
              match legacyTry s legacyPat4 with
              | some v => v
              | none => .obj []

/-- The documented default ParamRecord (enhanced_server.py 547-555). -/
def defaultsJ : JVal :=
  .obj [("mode".data, .str ("gfpgan".data)),
        ("scaleFactor".data, .num 2),
        ("sharpenStrength".data, .num (mkRat 6 5)),
        ("noiseReduction".data, .num 6),
        ("contrast".data, .num (mkRat 23 20)),
        ("blendWeight".data, .num (mkRat 4 5)),
        ("enableFaceEnhancement".data, .bool true)]

/-- The fast server's fixed parameter record (fast_enhanced_server.py
334-340). -/
def fastDefaultsJ : JVal :=
  .obj [("mode".data, .str ("fast".data)),
        ("scaleFactor".data, .num 2),
        ("sharpenStrength".data, .num 1),
        ("contrast".data, .num (mkRat 11 10)),
        ("enableFaceEnhancement".data, .bool false)]

/-- The structured `name="parameters"` field attempt (enhanced_server.py
489-504): value between the first `\r\n\r\n` after the disposition and the
next `\r\n------`, decoded as JSON; any miss leaves the initial `{}`. -/
def structuredParams (s : List Char) : JVal :=
  match pyFind s k_nameParameters 0 with
  | none => .obj []
  | some fs =>
      match pyFind s crlf2 fs with
      | none => .obj []
      | some d0 =>
          let ds := d0 + 4
          match pyFind s crlfDashes ds with
          | none => .obj []
          | some be =>
              match jsonLoads (pyStrip (pySlice s ds be)) with
              | some v => v
              | none => .obj []

/-- Parameter extraction of the enhanced server (enhanced_server.py
486-555): structured `parameters` field first, then the legacy anchor
scan (entered whenever the current value is falsy), then the documented
defaults. -/
def enh_parse_params (s : List Char) : JVal :=
  let p1 := structuredParams s
  let p2 := if truthy p1 then p1 else legacyScan s
  if truthy p2 then p2 else defaultsJ

/-- `parse_multipart_data` of the enhanced server (lines 441-567).  The
input is the request body after `decode('utf-8', errors='ignore')`; the
function body cannot raise, so the `except` arm (`None, {}`) is dead
code and does not appear here. -/
def enh_parse (s : List Char) : Option (List Char) × JVal :=
  let m1 := imageMethod1 s
  let img :=
    if truthyOpt m1 then m1
    else
      match imageMethod2 s with
      | some p => some p
      | none => m1
  (img, enh_parse_params s)

/-- `parse_multipart_data` of the fast server (lines 308-348): image via
method 1 only; the parameter record is the fixed fast-profile constant,
with no parsing of any `parameters` field. -/
def fast_parse (s : List Char) : Option (List Char) × JVal :=
  (imageMethod1 s, fastDefaultsJ)

/-- Line collection of the basic server's image part (python_server.py
137-143): lines after the first blank line. -/
def collectAfterBlank (lines : List (List Char)) : List (List Char) :=
  (lines.foldl
    (fun (st : Bool × List (List Char)) ln =>
      if st.1 then (true, st.2 ++ [ln])
      else if ln.isEmpty then (true, st.2)
      else st)
    (false, [])).2

/-- Parameter-line scan of the basic server (python_server.py 153-164):
the first nonblank line after a blank line is decoded; a decode failure is
silently ignored (`except: pass` then `break`). -/
def paramLineScanGo : List (List Char) → Bool → JVal → JVal
  | [], _, old => old
  | ln :: rest, ds, old =>
      if ds && !(pyStrip ln).isEmpty then
        match jsonLoads ln with
        | some v => v
        | none => old
      else if ln.isEmpty then paramLineScanGo rest true old
      else paramLineScanGo rest ds old

/-- One part of the basic server's boundary-split loop (python_server.py
131-164): later parts overwrite earlier results. -/
def pyPartStep (acc : Option (List Char) × JVal) (part : List Char) :
    Option (List Char) × JVal :=
  if (pyFind part k_contentDisp 0).isSome then
    if (pyFind part k_nameImage 0).isSome then
      let lines := pySplit part crlfL
      let ils := collectAfterBlank lines
      if ils.isEmpty then acc
      else
        let ils2 :=
          if ils.getLast? == some ([] : List Char) then ils.dropLast else ils
        (some (List.intercalate crlfL ils2), acc.2)
    else if (pyFind part k_nameParameters 0).isSome then
      (acc.1, paramLineScanGo (pySplit part crlfL) false acc.2)
    else acc
  else acc

/-- `parse_multipart_data` of the basic server (python_server.py 108-170):
requires a multipart content type and a `boundary=` attribute in the
headers, splits the (latin1-decoded) body on the boundary and scans the
parts. -/
def py_parse (hdrs body : List Char) : Option (List Char) × JVal :=
  match pyFind hdrs k_ctMultipart 0 with
  | none => (none, .obj [])
  | some _ =>
      let bm := pySplit hdrs k_boundaryEq
      if bm.length ≤ 1 then (none, .obj [])
      else
        let boundary :=
          "--".data ++
            pyStrip ((pySplit (bm.getD 1 []) ("\\".data)).getD 0 [])
        let parts := pySplit body boundary
        parts.foldl pyPartStep (none, .obj [])

/-! ### The tertiary (simulation) tier of the basic server -/

/-- The base64 alphabet. -/
def b64alphabet : List Char :=
  "ABCDEFGHIJKLMNOPQRSTUVWXYZabcdefghijklmnopqrstuvwxyz0123456789+/".data

/-- One base64 output character. -/
def b64char (n : ℕ) : Char := b64alphabet.getD n 'A'

/-- `base64.b64encode` on a byte list (values < 256). -/
def b64encode : List ℕ → List Char
  | [] => []
  | [a] => [b64char (a / 4), b64char (a % 4 * 16), '=', '=']
  | [a, b] =>
      [b64char (a / 4), b64char (a % 4 * 16 + b / 16), b64char (b % 16 * 4), '=']
  | a :: b :: c :: rest =>
      b64char (a / 4) :: b64char (a % 4 * 16 + b / 16) ::
        b64char (b % 16 * 4 + c / 64) :: b64char (c % 64) :: b64encode rest

/-- `s.encode('latin1')`: `none` models the `UnicodeEncodeError` raised on
a code point above 255. -/
def encodeLatin1 (s : List Char) : Option (List ℕ) :=
  if s.all (fun c => c.toNat < 256) then some (s.map Char.toNat) else none

/-- `get_test_image` (python_server.py 192-203): the embedded base64 block
with whitespace removed, behind a data-URL head. -/
def testImageData : List Char :=
  dataJpegHead ++
    ("/9j/4AAQSkZJRgABAQAAAQABAAD/2wBDAAMCAgMCAgMDAwMEAwMEBQgFBQQEBQoHBwYIDAoMDAsKCwsNDhIQDQ4RDgsLEBYQERMUFRUVDA8XGBYUGBIUFRT/2wBDAQMEBAUEBQkFBQkUDQsNFBQUFBQUFBQUFBQUFBQUFBQUFBQUFBQUFBQUFBQUFBQUFBQUFBQUFBQUFBQUFBQUFBT/wAARCAABAAEDASIAAhEBAxEB/8QAFQABAQAAAAAAAAAAAAAAAAAAAAv/xAAUEAEAAAAAAAAAAAAAAAAAAAAA/8QAFQEBAQAAAAAAAAAAAAAAAAAAAAX/xAAUEQEAAAAAAAAAAAAAAAAAAAAA/9oADAMBAAIRAxEAPwCdABmX/9k=".data)

/-- `simulate_enhancement` (python_server.py 172-190): a payload already
carrying a `data:image` head passes through unchanged; otherwise the
(latin1) bytes are base64-wrapped into a data URL; the `except` arm
returns the embedded test image. -/
def simulate_enhancement (s : List Char) : List Char :=
  if ("data:image".data).isPrefixOf s then s
  else
    match encodeLatin1 s with
    | some bs => dataJpegHead ++ b64encode bs
    | none => testImageData

/-! ### The enhance-request handlers -/

/-- A `{success: false, error: msg}` result record. -/
def errRes (msg : List Char) : EnhRes :=
  { success := false, enhancedImage := none, methodName := []
    scaleMetric := none, facesDetected := none, errorMsg := some msg }

/-- `handle_enhance_request` of the enhanced server (lines 108-140):
falsy image data → `send_error_response` (status 400); otherwise the
enhancement result with status 200.  Returns the response and the
`_faces_detected` state after the request. -/
def handle_enhance_enhanced {F P : Type} (cv : CVPrims F) (pil : PILPrims P)
    (fp : FacePrims F) (opencvAvailable : Bool) (st : Option ℕ)
    (body : List Char) : Response × Option ℕ :=
  let pr := enh_parse body
  if !truthyOpt pr.1 then
    ({ status := 400, res := errRes ("No image data received".data) }, st)
  else
    let r := enhance_image_opencv cv pil fp opencvAvailable st (pr.1.getD [])
      pr.2
    ({ status := 200, res := r.1 }, r.2)

/-- `handle_enhance_request` of the fast server (lines 109-141). -/
def handle_enhance_fast {F P : Type} (cv : CVPrims F) (pil : PILPrims P)
    (opencvAvailable : Bool) (body : List Char) : Response :=
  let pr := fast_parse body
  if !truthyOpt pr.1 then
    { status := 400, res := errRes ("No image data received".data) }
  else
    { status := 200
      res := fast_enhance_image cv pil opencvAvailable (pr.1.getD []) pr.2 }

/-- `handle_enhance_request` of the basic server (python_server.py 60-106):
both the success result and the no-image failure result are sent with
status 200; a raised exception (here: the metrics arithmetic on a
non-numeric `strength` value) yields status 500. -/
def handle_enhance_python (hdrs body : List Char) : Response :=
  let pr := py_parse hdrs body
  if truthyOpt pr.1 then
    match jget pr.2 ("strength".data) (.num (mkRat 3 2)) with
    | none => { status := 500, res := errRes ("server error".data) }
    | some v =>
        match pyFloat v with
        | none => { status := 500, res := errRes ("server error".data) }
        | some _q =>
            { status := 200
              res :=
                { success := true
                  enhancedImage := some (simulate_enhancement (pr.1.getD []))
                  methodName := "simulation".data
                  scaleMetric := none, facesDetected := none
                  errorMsg := none } }
  else { status := 200, res := errRes ("No image data received".data) }

/-! ### Characterization of the substring search -/

theorem findFromAux_eq_some_iff (sub : List Char) :
    ∀ (hay : List Char) (i j : Nat),
      findFromAux sub hay i = some j ↔
        (i ≤ j ∧ j - i ≤ hay.length ∧ sub.isPrefixOf (hay.drop (j - i)) ∧
          ∀ k, i ≤ k → k < j → ¬ sub.isPrefixOf (hay.drop (k - i))) := by
  intro hay
  induction hay with
  | nil =>
      intro i j
      simp only [findFromAux]
      by_cases hs : sub.isEmpty
      · have hsub : sub = [] := by simpa [List.isEmpty_iff] using hs
        subst hsub
        simp only [List.isEmpty_nil, if_pos rfl]
        constructor
        · intro h
          have : j = i := by simpa using h.symm
          subst this
          refine ⟨le_refl _, by simp, by simp [List.isPrefixOf], ?_⟩
          intro k hk1 hk2
          omega
        · rintro ⟨h1, _h2, _h3, h4⟩
          have : j = i := by
            by_contra hne
            exact h4 i (le_refl _) (by omega) (by simp [List.isPrefixOf])
          simp [this]
      · have hsub : sub ≠ [] := fun h => hs (by simp [h])
        constructor
        · intro h
          rw [if_neg (by simpa using hs)] at h
          exact absurd h (by simp)
        · rintro ⟨h1, h2, h3, _h4⟩
          exfalso
          apply hsub
          have h3' : sub <+: ([] : List Char) := by
            have := List.isPrefixOf_iff_prefix.mp h3
            simpa using this
          exact List.prefix_nil.mp h3'
  | cons c t ih =>
      intro i j
      simp only [findFromAux]
      by_cases hp : sub.isPrefixOf (c :: t)
      · simp only [hp, if_pos rfl]
        constructor
        · intro h
          have : j = i := by simpa using h.symm
          subst this
          refine ⟨le_refl _, by simp, by simpa using hp, ?_⟩
          intro k hk1 hk2
          omega
        · rintro ⟨h1, _h2, _h3, h4⟩
          have : j = i := by
            by_contra hne
            exact h4 i (le_refl _) (by omega) (by simpa using hp)
          simp [this]
      · simp only [hp]
        rw [if_neg (by simp), ih (i + 1) j]
        constructor
        · rintro ⟨h1, h2, h3, h4⟩
          refine ⟨by omega, by simp; omega, ?_, ?_⟩
          · have hd : (c :: t).drop (j - i) = t.drop (j - (i + 1)) := by
              have : j - i = (j - (i + 1)) + 1 := by omega
              simp [this]
            rw [hd]
            exact h3
          · intro k hk1 hk2
            rcases Nat.eq_or_lt_of_le hk1 with heq | hlt
            · subst heq
              simpa using hp
            · have hd : (c :: t).drop (k - i) = t.drop (k - (i + 1)) := by
                have : k - i = (k - (i + 1)) + 1 := by omega
                simp [this]
              rw [hd]
              exact h4 k (by omega) hk2
        · rintro ⟨h1, h2, h3, h4⟩
          have hij : i ≠ j := by
            rintro rfl
            exact hp (by simpa using h3)
          refine ⟨by omega, by simp at h2 ⊢; omega, ?_, ?_⟩
          · have hd : t.drop (j - (i + 1)) = (c :: t).drop (j - i) := by
              have : j - i = (j - (i + 1)) + 1 := by omega
              simp [this]
            rw [hd]
            exact h3
          · intro k hk1 hk2
            have hd : t.drop (k - (i + 1)) = (c :: t).drop (k - i) := by
              have : k - i = (k - (i + 1)) + 1 := by omega
              simp [this]
            rw [hd]
            exact h4 k (by omega) hk2

theorem pyFind_eq_some_iff (s sub : List Char) (start j : ℕ)
    (hstart : start ≤ s.length) :
    pyFind s sub start = some j ↔
      (start ≤ j ∧ j - start ≤ s.length - start ∧ sub.isPrefixOf (s.drop j) ∧
        ∀ k, start ≤ k → k < j → ¬ sub.isPrefixOf (s.drop k)) := by
  simp only [pyFind, if_pos hstart]
  rw [findFromAux_eq_some_iff]
  constructor
  · rintro ⟨h1, h2, h3, h4⟩
    refine ⟨h1, by simpa using h2, ?_, ?_⟩
    · rw [List.drop_drop] at h3
      have he : start + (j - start) = j := by omega
      rwa [he] at h3
    · intro k hk1 hk2
      have := h4 k hk1 hk2
      rw [List.drop_drop] at this
      have he : start + (k - start) = k := by omega
      rwa [he] at this
  · rintro ⟨h1, h2, h3, h4⟩
    refine ⟨h1, by simpa using h2, ?_, ?_⟩
    · rw [List.drop_drop]
      have he : start + (j - start) = j := by omega
      rwa [he]
    · intro k hk1 hk2
      rw [List.drop_drop]
      have he : start + (k - start) = k := by omega
      rw [he]
      exact h4 k hk1 hk2

theorem findFromAux_eq_none_iff (sub : List Char) :
    ∀ (hay : List Char) (i : Nat),
      findFromAux sub hay i = none ↔
        ∀ k, i ≤ k → k - i ≤ hay.length → ¬ sub.isPrefixOf (hay.drop (k - i)) := by
  intro hay
  induction hay with
  | nil =>
      intro i
      simp only [findFromAux]
      by_cases hs : sub.isEmpty
      · have hsub : sub = [] := by simpa [List.isEmpty_iff] using hs
        rw [if_pos (by simpa using hs)]
        constructor
        · intro h
          exact absurd h (by simp)
        · intro h
          exact absurd (h i (le_refl _) (by simp)
            (by simp [hsub, List.isPrefixOf])) (by simp)
      · have hsub : sub ≠ [] := fun h => hs (by simp [h])
        rw [if_neg (by simpa using hs)]
        constructor
        · intro _ k hk1 hk2 hpre
          apply hsub
          rw [List.drop_nil] at hpre
          have h3' : sub <+: ([] : List Char) :=
            List.isPrefixOf_iff_prefix.mp hpre
          exact List.prefix_nil.mp h3'
        · intro _
          rfl
  | cons c t ih =>
      intro i
      simp only [findFromAux]
      by_cases hp : sub.isPrefixOf (c :: t)
      · simp only [hp, if_pos rfl]
        constructor
        · intro h
          exact absurd h (by simp)
        · intro h
          exact absurd (h i (le_refl _) (by simp) (by simpa using hp)) (by simp)
      · simp only [hp]
        rw [if_neg (by simp), ih (i + 1)]
        constructor
        · intro h k hk1 hk2
          rcases Nat.eq_or_lt_of_le hk1 with heq | hlt
          · subst heq
            simpa using hp
          · have hd : (c :: t).drop (k - i) = t.drop (k - (i + 1)) := by
              have : k - i = (k - (i + 1)) + 1 := by omega
              simp [this]
            rw [hd]
            exact h k (by omega) (by simp at hk2 ⊢; omega)
        · intro h k hk1 hk2
          have hd : t.drop (k - (i + 1)) = (c :: t).drop (k - i) := by
            have : k - i = (k - (i + 1)) + 1 := by omega
            simp [this]
          rw [hd]
          exact h k (by omega) (by simp; omega)

theorem pyFind_eq_none_iff (s sub : List Char) (start : ℕ)
    (hstart : start ≤ s.length) :
    pyFind s sub start = none ↔
      ∀ k, start ≤ k → ¬ sub.isPrefixOf (s.drop k) := by
  simp only [pyFind, if_pos hstart]
  rw [findFromAux_eq_none_iff]
  constructor
  · intro h k hk1 hpre
    by_cases hk2 : k ≤ s.length
    · refine h k hk1 (by simp; omega) ?_
      rw [List.drop_drop]
      have he : start + (k - start) = k := by omega
      rwa [he]
    · have hdk : s.drop k = [] := List.drop_eq_nil_of_le (by omega)
      rw [hdk] at hpre
      have hsub : sub = [] :=
        List.prefix_nil.mp (List.isPrefixOf_iff_prefix.mp hpre)
      refine h start (le_refl _) (by simp) ?_
      simp [hsub, List.isPrefixOf_iff_prefix]
  · intro h k hk1 _hk2 hpre
    refine h k hk1 ?_
    rw [List.drop_drop] at hpre
    have he : start + (k - start) = k := by omega
    rwa [he] at hpre

/-- A nonempty pattern occurring at `e` ends within the string. -/
theorem occ_bound (s sub : List Char) (e : ℕ) (hne : sub ≠ [])
    (h : sub.isPrefixOf (s.drop e)) : e + sub.length ≤ s.length := by
  have hpre : sub <+: s.drop e := List.isPrefixOf_iff_prefix.mp h
  have := hpre.length_le
  simp at this
  have hpos : 0 < sub.length := List.length_pos.mpr hne
  omega

theorem pySlice_to_end (s : List Char) (i : ℕ) :
    pySlice s i s.length = s.drop i := by
  simp only [pySlice]
  apply List.take_of_length_le
  simp

/-! ### Stage traces of the two pipelines -/

/-- The stage trace the primary pipeline produces (proved below). -/
def realTrace (mode fe : JVal) (sf nr sh : ℚ) : List Tag :=
  (if sf > 1 then
    [Tag.upscale (if mode.eqStr ("gfpgan".data) then Interp.lanczos4
                  else Interp.cubic)]
   else []) ++
  (if nr > 0 then [Tag.denoise] else []) ++
  (if sh > 0 then [Tag.sharpen] else []) ++
  [Tag.contrastStage, Tag.clahe] ++
  (if (mode.eqStr ("gfpgan".data) || mode.eqStr ("hybrid".data)) && truthy fe
   then [Tag.faceStage] else []) ++
  [Tag.colorStage, Tag.polish]

/-- The stage trace the fast pipeline produces (proved below); the
arguments are the already-clamped parameter values. -/
def fastTrace (sf sh ct : ℚ) : List Tag :=
  (if sf > 1 then [Tag.upscale Interp.linear] else []) ++
  (if sh > 0 then [Tag.sharpen] else []) ++
  (if ct > 1 then [Tag.contrastStage] else []) ++
  [Tag.colorStage]

set_option maxHeartbeats 2000000 in
theorem apply_real_trace {F : Type} (cv : CVPrims F) (fp : FacePrims F)
    (st : Option ℕ) (image : F) (params mode : JVal)
    (sf sh nr ct bw : ℚ) (fe : JVal)
    (h1 : (jget params ("scaleFactor".data) (.num 2)).bind pyFloat = some sf)
    (h2 : (jget params ("sharpenStrength".data) (.num (mkRat 6 5))).bind pyFloat
            = some sh)
    (h3 : (jget params ("noiseReduction".data) (.num 6)).bind pyFloat = some nr)
    (h4 : (jget params ("contrast".data) (.num (mkRat 23 20))).bind pyFloat
            = some ct)
    (h5 : (jget params ("blendWeight".data) (.num (mkRat 4 5))).bind pyFloat
            = some bw)
    (h6 : jget params ("enableFaceEnhancement".data) (.bool true) = some fe) :
    (apply_real_enhancement cv fp st image params mode).map (fun r => r.2.2)
      = some (realTrace mode fe sf nr sh) := by
  obtain ⟨v1, hv1, hf1⟩ := Option.bind_eq_some.mp h1
  obtain ⟨v2, hv2, hf2⟩ := Option.bind_eq_some.mp h2
  obtain ⟨v3, hv3, hf3⟩ := Option.bind_eq_some.mp h3
  obtain ⟨v4, hv4, hf4⟩ := Option.bind_eq_some.mp h4
  obtain ⟨v5, hv5, hf5⟩ := Option.bind_eq_some.mp h5
  unfold apply_real_enhancement
  simp only [hv1, hf1, hv2, hf2, hv3, hf3, hv4, hf4, hv5, hf5, h6,
    Option.bind_eq_bind, Option.some_bind, Option.map_some]
  simp only [realTrace]
  split_ifs <;> rfl

set_option maxHeartbeats 2000000 in
theorem apply_fast_trace {F : Type} (cv : CVPrims F) (image : F)
    (params : JVal) (sf sh ct : ℚ)
    (h1 : (jget params ("scaleFactor".data) (.num 2)).bind pyFloat = some sf)
    (h2 : (jget params ("sharpenStrength".data) (.num 1)).bind pyFloat
            = some sh)
    (h3 : (jget params ("contrast".data) (.num (mkRat 11 10))).bind pyFloat
            = some ct) :
    (apply_fast_enhancement cv image params).map (fun r => r.2)
      = some (fastTrace (min sf (mkRat 5 2)) (min sh (mkRat 3 2)) (min ct (mkRat 13 10))) := by
  obtain ⟨v1, hv1, hf1⟩ := Option.bind_eq_some.mp h1
  obtain ⟨v2, hv2, hf2⟩ := Option.bind_eq_some.mp h2
  obtain ⟨v3, hv3, hf3⟩ := Option.bind_eq_some.mp h3
  unfold apply_fast_enhancement
  simp only [hv1, hf1, hv2, hf2, hv3, hf3,
    Option.bind_eq_bind, Option.some_bind, Option.map_some]
  simp only [fastTrace]
  split_ifs <;> rfl

theorem realTrace_mem_upscale (mode fe : JVal) (sf nr sh : ℚ) (ip : Interp) :
    Tag.upscale ip ∈ realTrace mode fe sf nr sh ↔
      (sf > 1 ∧
        ip = (if mode.eqStr ("gfpgan".data) then Interp.lanczos4
              else Interp.cubic)) := by
  simp only [realTrace, List.mem_append, List.mem_singleton]
  by_cases h1 : sf > 1 <;> by_cases h2 : nr > 0 <;> by_cases h3 : sh > 0 <;>
    by_cases h4 : (mode.eqStr ("gfpgan".data) ||
      mode.eqStr ("hybrid".data)) && truthy fe <;>
    simp [h1, h2, h3, h4]

theorem realTrace_mem_denoise (mode fe : JVal) (sf nr sh : ℚ) :
    Tag.denoise ∈ realTrace mode fe sf nr sh ↔ nr > 0 := by
  simp only [realTrace, List.mem_append, List.mem_singleton]
  by_cases h1 : sf > 1 <;> by_cases h2 : nr > 0 <;> by_cases h3 : sh > 0 <;>
    by_cases h4 : (mode.eqStr ("gfpgan".data) ||
      mode.eqStr ("hybrid".data)) && truthy fe <;>
    simp [h1, h2, h3, h4]

theorem realTrace_mem_sharpen (mode fe : JVal) (sf nr sh : ℚ) :
    Tag.sharpen ∈ realTrace mode fe sf nr sh ↔ sh > 0 := by
  simp only [realTrace, List.mem_append, List.mem_singleton]
  by_cases h1 : sf > 1 <;> by_cases h2 : nr > 0 <;> by_cases h3 : sh > 0 <;>
    by_cases h4 : (mode.eqStr ("gfpgan".data) ||
      mode.eqStr ("hybrid".data)) && truthy fe <;>
    simp [h1, h2, h3, h4]

theorem realTrace_mem_contrast (mode fe : JVal) (sf nr sh : ℚ) :
    Tag.contrastStage ∈ realTrace mode fe sf nr sh := by
  simp [realTrace]

theorem realTrace_mem_face (mode fe : JVal) (sf nr sh : ℚ) :
    Tag.faceStage ∈ realTrace mode fe sf nr sh ↔
      ((mode.eqStr ("gfpgan".data) || mode.eqStr ("hybrid".data)) &&
        truthy fe) = true := by
  simp only [realTrace, List.mem_append, List.mem_singleton]
  by_cases h1 : sf > 1 <;> by_cases h2 : nr > 0 <;> by_cases h3 : sh > 0 <;>
    by_cases h4 : (mode.eqStr ("gfpgan".data) ||
      mode.eqStr ("hybrid".data)) && truthy fe <;>
    simp [h1, h2, h3, h4]

theorem fastTrace_mem_upscale (sf sh ct : ℚ) :
    Tag.upscale Interp.linear ∈ fastTrace sf sh ct ↔ sf > 1 := by
  simp only [fastTrace, List.mem_append, List.mem_singleton]
  by_cases h1 : sf > 1 <;> by_cases h2 : sh > 0 <;> by_cases h3 : ct > 1 <;>
    simp [h1, h2, h3]

theorem fastTrace_mem_sharpen (sf sh ct : ℚ) :
    Tag.sharpen ∈ fastTrace sf sh ct ↔ sh > 0 := by
  simp only [fastTrace, List.mem_append, List.mem_singleton]
  by_cases h1 : sf > 1 <;> by_cases h2 : sh > 0 <;> by_cases h3 : ct > 1 <;>
    simp [h1, h2, h3]

theorem fastTrace_mem_contrast (sf sh ct : ℚ) :
    Tag.contrastStage ∈ fastTrace sf sh ct ↔ ct > 1 := by
  simp only [fastTrace, List.mem_append, List.mem_singleton]
  by_cases h1 : sf > 1 <;> by_cases h2 : sh > 0 <;> by_cases h3 : ct > 1 <;>
    simp [h1, h2, h3]

theorem fastTrace_not_denoise (sf sh ct : ℚ) :
    Tag.denoise ∉ fastTrace sf sh ct := by
  simp only [fastTrace, List.mem_append, List.mem_singleton]
  by_cases h1 : sf > 1 <;> by_cases h2 : sh > 0 <;> by_cases h3 : ct > 1 <;>
    simp [h1, h2, h3]

/-! ### Concrete primitive instances (for witnesses and counterexamples) -/

/-- Trivial cv2 primitives over a one-point frame type. -/
def unitCV : CVPrims Unit where
  width := fun _ => 1
  height := fun _ => 1
  decode := fun _ => some ()
  resize := fun _ _ _ _ => ()
  bilateralFilter := fun _ _ _ _ => ()
  gaussianBlur := fun _ _ _ _ => ()
  addWeighted := fun _ _ _ _ _ => ()
  filter2D := fun _ _ => ()
  convertScaleAbs := fun _ _ _ => ()
  labClahe := fun _ => ()
  hsvColorBoost := fun _ => ()
  encodeJpeg := fun _ _ => []

/-- Face primitives that detect nothing and never fail. -/
def unitFace : FacePrims Unit where
  detectFaces := fun _ => .ok []
  processFace := fun _ _ => .ok ()

/-- Trivial PIL primitives over a one-point image type. -/
def unitPIL : PILPrims Unit where
  decode := fun _ => some ()
  width := fun _ => 1
  height := fun _ => 1
  resize := fun _ _ _ _ => ()
  contrastEnh := fun p _ => p
  sharpnessEnh := fun p _ => p
  unsharpMask := fun p _ _ _ => p
  detail := fun p => p
  encodeJpeg := fun _ _ => []

/-- Width-tracking PIL primitives: an image is its pixel width; decoding
yields a width-3 image, `resize` sets the requested width, and the filter
primitives preserve width (as real PIL filters do). -/
def widthPIL : PILPrims ℕ where
  decode := fun _ => some 3
  width := fun p => p
  height := fun _ => 1
  resize := fun _ w _ _ => w.toNat
  contrastEnh := fun p _ => p
  sharpnessEnh := fun p _ => p
  unsharpMask := fun p _ _ _ => p
  detail := fun p => p
  encodeJpeg := fun _ _ => []

/-- Face primitives whose detection itself raises. -/
def errFace : FacePrims ℕ where
  detectFaces := fun _ => .error ()
  processFace := fun _ _ => .ok 0

/-- Face primitives that detect one face and then raise inside the
per-face loop. -/
def failFace : FacePrims ℕ where
  detectFaces := fun _ => .ok [(0, 0, 5, 5)]
  processFace := fun _ _ => .error ()

/-! ### The claims -/

/-- C9: running the tertiary (passthrough/simulation) tier twice yields
byte-identical `enhancedImage` payloads — `simulate_enhancement` is
idempotent (and, being a pure function of the payload in this model, two
runs on the same input trivially agree byte for byte). -/
theorem C9_simulation_idempotent (s : List Char) :
    simulate_enhancement (simulate_enhancement s) = simulate_enhancement s := by
  have hpre : ∀ x : List Char,
      ("data:image".data).isPrefixOf (dataJpegHead ++ x) = true := by
    intro x
    apply List.isPrefixOf_iff_prefix.mpr
    have he : dataJpegHead = "data:image".data ++ "/jpeg;base64,".data := rfl
    rw [he, List.append_assoc]
    exact List.prefix_append _ _
  by_cases h : ("data:image".data).isPrefixOf s
  · simp [simulate_enhancement, h]
  · cases henc : encodeLatin1 s with
    | some bs =>
        have h1 : simulate_enhancement s = dataJpegHead ++ b64encode bs := by
          simp [simulate_enhancement, h, henc]
        rw [h1]
        unfold simulate_enhancement
        rw [if_pos (hpre (b64encode bs))]
    | none =>
        have h1 : simulate_enhancement s = testImageData := by
          simp [simulate_enhancement, h, henc]
        rw [h1]
        have hp : ("data:image".data).isPrefixOf testImageData = true := hpre _
        unfold simulate_enhancement
        rw [if_pos hp]

/-- C10: the fast server's parsed parameter record is the fixed
fast-profile constant, independent of any `parameters` form field, and two
request bodies whose image payloads parse alike produce identical
responses. -/
theorem C10_fast_params_fixed :
    (∀ body : List Char, (fast_parse body).2 = fastDefaultsJ) ∧
    (∀ (F P : Type) (cv : CVPrims F) (pil : PILPrims P) (avail : Bool)
        (b1 b2 : List Char),
        (fast_parse b1).1 = (fast_parse b2).1 →
        handle_enhance_fast cv pil avail b1 = handle_enhance_fast cv pil avail b2) := by
  constructor
  · intro body
    rfl
  · intro F P cv pil avail b1 b2 himg
    simp only [fast_parse] at himg
    simp only [handle_enhance_fast, fast_parse, himg]

/-- Witness for C10 at two concrete imageless bodies. -/
theorem C10_fast_params_fixed_witness :
    (fast_parse ("a".data)).2 = fastDefaultsJ ∧
    handle_enhance_fast unitCV unitPIL true ("a".data)
      = handle_enhance_fast unitCV unitPIL true ("b".data) :=
  ⟨C10_fast_params_fixed.1 ("a".data),
   C10_fast_params_fixed.2 Unit Unit unitCV unitPIL true ("a".data) ("b".data)
     (by decide)⟩

/-- C3 (amended): ingestion never raises and reports a missing payload via
a falsy sentinel; the enhanced and fast servers convert it into
`{success:false, error}` with HTTP 400, while the basic python server
delivers the same failure record with HTTP 200. -/
theorem C3_amended :
    (∀ (F P : Type) (cv : CVPrims F) (pil : PILPrims P) (fp : FacePrims F)
        (avail : Bool) (st : Option ℕ) (body : List Char),
        truthyOpt (enh_parse body).1 = false →
        handle_enhance_enhanced cv pil fp avail st body =
          (⟨400, errRes ("No image data received".data)⟩, st)) ∧
    (∀ (F P : Type) (cv : CVPrims F) (pil : PILPrims P) (avail : Bool)
        (body : List Char),
        truthyOpt (fast_parse body).1 = false →
        handle_enhance_fast cv pil avail body =
          ⟨400, errRes ("No image data received".data)⟩) ∧
    (∀ hdrs body : List Char,
        truthyOpt (py_parse hdrs body).1 = false →
        handle_enhance_python hdrs body =
          ⟨200, errRes ("No image data received".data)⟩) := by
  refine ⟨?_, ?_, ?_⟩
  · intro F P cv pil fp avail st body h
    simp [handle_enhance_enhanced, h]
  · intro F P cv pil avail body h
    simp [handle_enhance_fast, h]
  · intro hdrs body h
    simp [handle_enhance_python, h]

/-- Witness for C3 at concrete imageless requests against all three
servers. -/
theorem C3_amended_witness :
    handle_enhance_enhanced unitCV unitPIL unitFace true none ("x".data) =
      (⟨400, errRes ("No image data received".data)⟩, none) ∧
    handle_enhance_fast unitCV unitPIL true ("x".data) =
      ⟨400, errRes ("No image data received".data)⟩ ∧
    handle_enhance_python ("GET / HTTP/1.1".data) ("x".data) =
      ⟨200, errRes ("No image data received".data)⟩ :=
  ⟨C3_amended.1 Unit Unit unitCV unitPIL unitFace true none ("x".data)
     (by decide),
   C3_amended.2.1 Unit Unit unitCV unitPIL true ("x".data) (by decide),
   C3_amended.2.2 ("GET / HTTP/1.1".data) ("x".data) (by decide)⟩

/-- C3 counterexample: the basic python server delivers the no-image
failure result with HTTP 200, which is not a 4xx-class status. -/
theorem C3_counterexample :
    handle_enhance_python ("GET / HTTP/1.1".data) ("hello".data) =
      ⟨200, errRes ("No image data received".data)⟩ ∧
    ¬(400 ≤ 200 ∧ 200 < 500) := by
  constructor
  · decide
  · decide

/-- C5 (amended): when the structured `parameters` field yields nothing
truthy (missing, malformed, or falsy) *and* the legacy JSON-anchor scan
over the whole body also recovers nothing, enhanced-server ingestion
returns exactly the documented defaults; fast-server ingestion always
returns its fixed fast-profile record; neither ever raises. -/
theorem C5_amended :
    (∀ s : List Char, truthy (structuredParams s) = false →
        legacyScan s = .obj [] →
        enh_parse_params s = defaultsJ) ∧
    (∀ s : List Char, (fast_parse s).2 = fastDefaultsJ) := by
  constructor
  · intro s h1 h2
    have e1 : (if truthy (structuredParams s) = true then structuredParams s
        else legacyScan s) = legacyScan s := by
      rw [h1]
      simp
    simp only [enh_parse_params]
    rw [e1, h2]
    simp [truthy]
  · intro s
    rfl

/-- Witness for C5 at a concrete body with no parameters field and no
legacy anchor. -/
theorem C5_amended_witness :
    enh_parse_params ("x".data) = defaultsJ ∧
    (fast_parse ("x".data)).2 = fastDefaultsJ :=
  ⟨C5_amended.1 ("x".data) (by rfl) (by rfl), C5_amended.2 ("x".data)⟩

/-- C5 counterexample: a body whose `parameters` field is missing but which
contains a legacy `\x7b"mode"` anchor makes enhanced-server ingestion
return the recovered record, not the documented defaults; and the fast
server returns its fast-profile constants (sharpenStrength 1.0, contrast
1.1, mode "fast", enableFaceEnhancement false), which differ from the
documented defaults. -/
theorem C5_counterexample :
    enh_parse_params ("data:image/png;base64,AAAA\n\x7b\"mode\": \"fast\"\x7d".data)
      = .obj [(("mode".data), .str ("fast".data))] ∧
    JVal.obj [(("mode".data), .str ("fast".data))] ≠ defaultsJ ∧
    (fast_parse []).2 = fastDefaultsJ ∧
    fastDefaultsJ ≠ defaultsJ := by
  refine ⟨by rfl, ?_, rfl, ?_⟩
  · intro h
    have h2 := congrArg
      (fun v => match v with | JVal.obj l => l.length | _ => 0) h
    simp [defaultsJ] at h2
  · intro h
    have h2 := congrArg
      (fun v => match v with | JVal.obj l => l.length | _ => 0) h
    simp [fastDefaultsJ, defaultsJ] at h2

/-- C6 (amended): any exception inside `enhance_faces` returns the frame
unmodified and never propagates (the primary pipeline always completes);
but the reported face count is the stored `_faces_detected` state: the
prior state when detection itself fails, and the just-stored current
detection count when the per-face loop fails — 0 only when no count was
ever stored. -/
theorem C6_amended :
    (∀ (F : Type) (fp : FacePrims F) (st : Option ℕ) (img : F) (u : Unit),
        fp.detectFaces img = .error u → enhance_faces fp st img = (img, st)) ∧
    (∀ (F : Type) (fp : FacePrims F) (st : Option ℕ) (img : F)
        (faces : List Rect) (u : Unit),
        fp.detectFaces img = .ok faces →
        processFaces fp faces img = .error u →
        enhance_faces fp st img = (img, some faces.length)) ∧
    (∀ (F : Type) (cv : CVPrims F) (fp : FacePrims F) (st : Option ℕ)
        (image : F) (params mode : JVal) (sf sh nr ct bw : ℚ) (fe : JVal),
        (jget params ("scaleFactor".data) (.num 2)).bind pyFloat = some sf →
        (jget params ("sharpenStrength".data) (.num (mkRat 6 5))).bind pyFloat
          = some sh →
        (jget params ("noiseReduction".data) (.num 6)).bind pyFloat = some nr →
        (jget params ("contrast".data) (.num (mkRat 23 20))).bind pyFloat
          = some ct →
        (jget params ("blendWeight".data) (.num (mkRat 4 5))).bind pyFloat
          = some bw →
        jget params ("enableFaceEnhancement".data) (.bool true) = some fe →
        (apply_real_enhancement cv fp st image params mode).isSome = true) := by
  refine ⟨?_, ?_, ?_⟩
  · intro F fp st img u h
    simp [enhance_faces, h]
  · intro F fp st img faces u h1 h2
    simp [enhance_faces, h1, h2]
  · intro F cv fp st image params mode sf sh nr ct bw fe h1 h2 h3 h4 h5 h6
    have ht := apply_real_trace cv fp st image params mode sf sh nr ct bw fe
      h1 h2 h3 h4 h5 h6
    have := congrArg Option.isSome ht
    simpa [Option.isSome_map] using this

/-- Witness for C6: a failing detection keeps the prior stored count, a
failing per-face loop stores the fresh count, and the pipeline completes
with failing face primitives. -/
theorem C6_amended_witness :
    enhance_faces errFace (some 3) 5 = (5, some 3) ∧
    enhance_faces failFace none 7 = (7, some 1) ∧
    (apply_real_enhancement unitCV unitFace none () (.obj [])
        (.str ("gfpgan".data))).isSome = true :=
  ⟨C6_amended.1 ℕ errFace (some 3) 5 () rfl,
   C6_amended.2.1 ℕ failFace none 7 [(0, 0, 5, 5)] () rfl rfl,
   C6_amended.2.2 Unit unitCV unitFace none () (.obj [])
     (.str ("gfpgan".data)) 2 (mkRat 6 5) 6 (mkRat 23 20) (mkRat 4 5) (.bool true)
     rfl rfl rfl rfl rfl rfl⟩

/-- C6 counterexample: a per-face failure leaves the frame unmodified but
reports the just-stored detection count 1, not 0, as the claim requires. -/
theorem C6_counterexample :
    enhance_faces failFace none 7 = (7, some 1) ∧
    reportedFaces (enhance_faces failFace none 7).2 = 1 ∧ (1 : ℕ) ≠ 0 := by
  refine ⟨by decide, by decide, by decide⟩

/-- C1 (amended): in the primary pipeline the upscale stage runs iff
`scaleFactor > 1.0`, denoise iff `noiseReduction > 0`, sharpen iff
`sharpenStrength > 0`, but the contrast/brightness stage always runs,
regardless of the contrast parameter; in the fast pipeline (with clamped
parameters) upscale runs iff the clamped scale exceeds 1, sharpening iff
the clamped strength exceeds 0, the contrast stage iff the clamped
contrast exceeds 1.0 (not 0), and denoise never runs. -/
theorem C1_amended :
    (∀ (F : Type) (cv : CVPrims F) (fp : FacePrims F) (st : Option ℕ)
        (image : F) (params mode : JVal) (sf sh nr ct bw : ℚ) (fe : JVal)
        (f : F) (st2 : Option ℕ) (tr : List Tag),
        (jget params ("scaleFactor".data) (.num 2)).bind pyFloat = some sf →
        (jget params ("sharpenStrength".data) (.num (mkRat 6 5))).bind pyFloat
          = some sh →
        (jget params ("noiseReduction".data) (.num 6)).bind pyFloat = some nr →
        (jget params ("contrast".data) (.num (mkRat 23 20))).bind pyFloat
          = some ct →
        (jget params ("blendWeight".data) (.num (mkRat 4 5))).bind pyFloat
          = some bw →
        jget params ("enableFaceEnhancement".data) (.bool true) = some fe →
        apply_real_enhancement cv fp st image params mode = some (f, st2, tr) →
        (((∃ ip, Tag.upscale ip ∈ tr) ↔ sf > 1) ∧
         (Tag.denoise ∈ tr ↔ nr > 0) ∧
         (Tag.sharpen ∈ tr ↔ sh > 0) ∧
         Tag.contrastStage ∈ tr)) ∧
    (∀ (F : Type) (cv : CVPrims F) (image : F) (params : JVal)
        (sf sh ct : ℚ) (f : F) (tr : List Tag),
        (jget params ("scaleFactor".data) (.num 2)).bind pyFloat = some sf →
        (jget params ("sharpenStrength".data) (.num 1)).bind pyFloat = some sh →
        (jget params ("contrast".data) (.num (mkRat 11 10))).bind pyFloat
          = some ct →
        apply_fast_enhancement cv image params = some (f, tr) →
        ((Tag.upscale Interp.linear ∈ tr ↔ min sf (mkRat 5 2) > 1) ∧
         (Tag.sharpen ∈ tr ↔ min sh (mkRat 3 2) > 0) ∧
         (Tag.contrastStage ∈ tr ↔ min ct (mkRat 13 10) > 1) ∧
         Tag.denoise ∉ tr)) := by
  constructor
  · intro F cv fp st image params mode sf sh nr ct bw fe f st2 tr
      h1 h2 h3 h4 h5 h6 hrun
    have ht := apply_real_trace cv fp st image params mode sf sh nr ct bw fe
      h1 h2 h3 h4 h5 h6
    rw [hrun] at ht
    simp only [Option.map_some', Option.some.injEq] at ht
    subst ht
    refine ⟨⟨?_, ?_⟩, (realTrace_mem_denoise mode fe sf nr sh),
      (realTrace_mem_sharpen mode fe sf nr sh),
      realTrace_mem_contrast mode fe sf nr sh⟩
    · rintro ⟨ip, hip⟩
      exact ((realTrace_mem_upscale mode fe sf nr sh ip).mp hip).1
    · intro hsf
      exact ⟨_, (realTrace_mem_upscale mode fe sf nr sh _).mpr ⟨hsf, rfl⟩⟩
  · intro F cv image params sf sh ct f tr h1 h2 h3 hrun
    have ht := apply_fast_trace cv image params sf sh ct h1 h2 h3
    rw [hrun] at ht
    simp only [Option.map_some', Option.some.injEq] at ht
    subst ht
    exact ⟨fastTrace_mem_upscale _ _ _, fastTrace_mem_sharpen _ _ _,
      fastTrace_mem_contrast _ _ _, fastTrace_not_denoise _ _ _⟩

/-- Witness for C1: a default-parameter run of the primary pipeline and a
fast-profile run of the fast pipeline, with the stage guards evaluated. -/
theorem C1_amended_witness :
    (((∃ ip, Tag.upscale ip ∈
        [Tag.upscale Interp.lanczos4, Tag.denoise, Tag.sharpen,
         Tag.contrastStage, Tag.clahe, Tag.faceStage, Tag.colorStage,
         Tag.polish]) ↔ (2 : ℚ) > 1) ∧
     (Tag.denoise ∈
        [Tag.upscale Interp.lanczos4, Tag.denoise, Tag.sharpen,
         Tag.contrastStage, Tag.clahe, Tag.faceStage, Tag.colorStage,
         Tag.polish] ↔ (6 : ℚ) > 0) ∧
     (Tag.sharpen ∈
        [Tag.upscale Interp.lanczos4, Tag.denoise, Tag.sharpen,
         Tag.contrastStage, Tag.clahe, Tag.faceStage, Tag.colorStage,
         Tag.polish] ↔ (mkRat 6 5) > 0) ∧
     Tag.contrastStage ∈
        [Tag.upscale Interp.lanczos4, Tag.denoise, Tag.sharpen,
         Tag.contrastStage, Tag.clahe, Tag.faceStage, Tag.colorStage,
         Tag.polish]) ∧
    ((Tag.upscale Interp.linear ∈
        [Tag.upscale Interp.linear, Tag.sharpen, Tag.contrastStage,
         Tag.colorStage] ↔ min (2 : ℚ) (mkRat 5 2) > 1) ∧
     (Tag.sharpen ∈
        [Tag.upscale Interp.linear, Tag.sharpen, Tag.contrastStage,
         Tag.colorStage] ↔ min (1 : ℚ) (mkRat 3 2) > 0) ∧
     (Tag.contrastStage ∈
        [Tag.upscale Interp.linear, Tag.sharpen, Tag.contrastStage,
         Tag.colorStage] ↔ min (mkRat 11 10) (mkRat 13 10) > 1) ∧
     Tag.denoise ∉
        [Tag.upscale Interp.linear, Tag.sharpen, Tag.contrastStage,
         Tag.colorStage]) :=
  ⟨C1_amended.1 Unit unitCV unitFace none () (.obj []) (.str ("gfpgan".data))
     2 (mkRat 6 5) 6 (mkRat 23 20) (mkRat 4 5) (.bool true) () (some 0) _
     rfl rfl rfl rfl rfl rfl (by decide),
   C1_amended.2 Unit unitCV () fastDefaultsJ 2 1 (mkRat 11 10) () _
     rfl rfl rfl (by decide)⟩

/-- C1 counterexample: with `contrast = 0` the primary pipeline still runs
the contrast/brightness stage, though the claim says it is skipped when the
governing parameter is ≤ 0. -/
theorem C1_counterexample :
    apply_real_enhancement unitCV unitFace none ()
        (JVal.obj [("contrast".data, JVal.num 0)]) (.str ("gfpgan".data))
      = some ((), some 0,
          [Tag.upscale Interp.lanczos4, Tag.denoise, Tag.sharpen,
           Tag.contrastStage, Tag.clahe, Tag.faceStage, Tag.colorStage,
           Tag.polish]) ∧
    Tag.contrastStage ∈
      [Tag.upscale Interp.lanczos4, Tag.denoise, Tag.sharpen,
       Tag.contrastStage, Tag.clahe, Tag.faceStage, Tag.colorStage,
       Tag.polish] ∧
    ¬((0 : ℚ) > 0) :=
  ⟨by decide, by decide, by decide⟩

/-- C2 (amended): for a primary-pipeline run with `scaleFactor > 1.0`, the
upscale stage uses the highest-quality kernel (LANCZOS4) exactly when mode
is `gfpgan`, and the cheaper INTER_CUBIC kernel for every other mode —
including `hybrid`. -/
theorem C2_amended :
    ∀ (F : Type) (cv : CVPrims F) (fp : FacePrims F) (st : Option ℕ)
      (image : F) (params mode : JVal) (sf sh nr ct bw : ℚ) (fe : JVal)
      (f : F) (st2 : Option ℕ) (tr : List Tag),
      (jget params ("scaleFactor".data) (.num 2)).bind pyFloat = some sf →
      (jget params ("sharpenStrength".data) (.num (mkRat 6 5))).bind pyFloat
        = some sh →
      (jget params ("noiseReduction".data) (.num 6)).bind pyFloat = some nr →
      (jget params ("contrast".data) (.num (mkRat 23 20))).bind pyFloat = some ct →
      (jget params ("blendWeight".data) (.num (mkRat 4 5))).bind pyFloat
        = some bw →
      jget params ("enableFaceEnhancement".data) (.bool true) = some fe →
      apply_real_enhancement cv fp st image params mode = some (f, st2, tr) →
      sf > 1 →
      (Tag.upscale (if mode.eqStr ("gfpgan".data) then Interp.lanczos4
          else Interp.cubic) ∈ tr ∧
       ∀ ip, Tag.upscale ip ∈ tr →
         ip = (if mode.eqStr ("gfpgan".data) then Interp.lanczos4
               else Interp.cubic)) := by
  intro F cv fp st image params mode sf sh nr ct bw fe f st2 tr
    h1 h2 h3 h4 h5 h6 hrun hsf
  have ht := apply_real_trace cv fp st image params mode sf sh nr ct bw fe
    h1 h2 h3 h4 h5 h6
  rw [hrun] at ht
  simp only [Option.map_some', Option.some.injEq] at ht
  subst ht
  constructor
  · exact (realTrace_mem_upscale mode fe sf nr sh _).mpr ⟨hsf, rfl⟩
  · intro ip hip
    exact ((realTrace_mem_upscale mode fe sf nr sh ip).mp hip).2

/-- Witness for C2 at a concrete `gfpgan` run with scale 2. -/
theorem C2_amended_witness :
    Tag.upscale (if (JVal.str ("gfpgan".data)).eqStr ("gfpgan".data) then
        Interp.lanczos4 else Interp.cubic) ∈
      [Tag.upscale Interp.lanczos4, Tag.denoise, Tag.sharpen,
       Tag.contrastStage, Tag.clahe, Tag.faceStage, Tag.colorStage,
       Tag.polish] ∧
    ∀ ip, Tag.upscale ip ∈
        [Tag.upscale Interp.lanczos4, Tag.denoise, Tag.sharpen,
         Tag.contrastStage, Tag.clahe, Tag.faceStage, Tag.colorStage,
         Tag.polish] →
      ip = (if (JVal.str ("gfpgan".data)).eqStr ("gfpgan".data) then
        Interp.lanczos4 else Interp.cubic) :=
  C2_amended Unit unitCV unitFace none () (.obj []) (.str ("gfpgan".data))
    2 (mkRat 6 5) 6 (mkRat 23 20) (mkRat 4 5) (.bool true) () (some 0) _
    rfl rfl rfl rfl rfl rfl (by decide) (by norm_num)

/-- C2 counterexample: a `hybrid` run with scale 2 upscales with the
INTER_CUBIC kernel, not the highest-quality LANCZOS4 kernel the claim
promises for `hybrid`. -/
theorem C2_counterexample :
    apply_real_enhancement unitCV unitFace none () (.obj [])
        (.str ("hybrid".data))
      = some ((), some 0,
          [Tag.upscale Interp.cubic, Tag.denoise, Tag.sharpen,
           Tag.contrastStage, Tag.clahe, Tag.faceStage, Tag.colorStage,
           Tag.polish]) ∧
    Tag.upscale Interp.lanczos4 ∉
      [Tag.upscale Interp.cubic, Tag.denoise, Tag.sharpen,
       Tag.contrastStage, Tag.clahe, Tag.faceStage, Tag.colorStage,
       Tag.polish] :=
  ⟨by decide, by decide⟩

/-- C8: for every primary-pipeline run with a boolean-typed (or absent,
defaulting to true) `enableFaceEnhancement`, the face stage runs iff mode
is `gfpgan` or `hybrid` and the flag is true; it never runs for `fast`. -/
theorem C8_face_stage_gate :
    ∀ (F : Type) (cv : CVPrims F) (fp : FacePrims F) (st : Option ℕ)
      (image : F) (params mode : JVal) (sf sh nr ct bw : ℚ) (b : Bool)
      (f : F) (st2 : Option ℕ) (tr : List Tag),
      (jget params ("scaleFactor".data) (.num 2)).bind pyFloat = some sf →
      (jget params ("sharpenStrength".data) (.num (mkRat 6 5))).bind pyFloat
        = some sh →
      (jget params ("noiseReduction".data) (.num 6)).bind pyFloat = some nr →
      (jget params ("contrast".data) (.num (mkRat 23 20))).bind pyFloat = some ct →
      (jget params ("blendWeight".data) (.num (mkRat 4 5))).bind pyFloat
        = some bw →
      jget params ("enableFaceEnhancement".data) (.bool true)
        = some (.bool b) →
      apply_real_enhancement cv fp st image params mode = some (f, st2, tr) →
      ((Tag.faceStage ∈ tr ↔
          ((mode.eqStr ("gfpgan".data) = true ∨
            mode.eqStr ("hybrid".data) = true) ∧ b = true)) ∧
       (mode = .str ("fast".data) → Tag.faceStage ∉ tr)) := by
  intro F cv fp st image params mode sf sh nr ct bw b f st2 tr
    h1 h2 h3 h4 h5 h6 hrun
  have ht := apply_real_trace cv fp st image params mode sf sh nr ct bw
    (.bool b) h1 h2 h3 h4 h5 h6
  rw [hrun] at ht
  simp only [Option.map_some', Option.some.injEq] at ht
  subst ht
  have hiff := realTrace_mem_face mode (.bool b) sf nr sh
  constructor
  · rw [hiff]
    simp [truthy, Bool.and_eq_true, Bool.or_eq_true]
  · intro hm hmem
    subst hm
    rw [hiff] at hmem
    simp [JVal.eqStr, truthy] at hmem

/-- Witness for C8 at a concrete `gfpgan` run with the flag explicitly
true. -/
theorem C8_face_stage_gate_witness :
    (Tag.faceStage ∈
        [Tag.upscale Interp.lanczos4, Tag.denoise, Tag.sharpen,
         Tag.contrastStage, Tag.clahe, Tag.faceStage, Tag.colorStage,
         Tag.polish] ↔
      (((JVal.str ("gfpgan".data)).eqStr ("gfpgan".data) = true ∨
        (JVal.str ("gfpgan".data)).eqStr ("hybrid".data) = true) ∧
        true = true)) ∧
    ((JVal.str ("gfpgan".data)) = .str ("fast".data) →
      Tag.faceStage ∉
        [Tag.upscale Interp.lanczos4, Tag.denoise, Tag.sharpen,
         Tag.contrastStage, Tag.clahe, Tag.faceStage, Tag.colorStage,
         Tag.polish]) :=
  C8_face_stage_gate Unit unitCV unitFace none ()
    (.obj [("enableFaceEnhancement".data, .bool true)])
    (.str ("gfpgan".data)) 2 (mkRat 6 5) 6 (mkRat 23 20) (mkRat 4 5) true () (some 0) _
    rfl rfl rfl rfl rfl rfl (by decide)

/-- Beyond the end of the string no nonempty pattern occurs. -/
theorem not_pre_of_gt_length (s sub : List Char) (hne : sub ≠ []) (k : ℕ)
    (hk : s.length < k) : ¬ sub.isPrefixOf (s.drop k) := by
  intro hpre
  rw [List.drop_eq_nil_of_le (by omega)] at hpre
  exact hne (List.prefix_nil.mp (List.isPrefixOf_iff_prefix.mp hpre))

/-- C4 (amended): in the OpenCV path the `scale_factor` metric is the
rounded measured output/input width ratio; in the PIL fallback it is the
raw input `scaleFactor` parameter restated verbatim. -/
theorem C4_amended :
    (∀ (F P : Type) (cv : CVPrims F) (pil : PILPrims P) (fp : FacePrims F)
        (st st2 : Option ℕ) (imageData : List Char) (params : JVal)
        (m : List Char) (img0 f : F) (tr : List Tag),
        cv.decode imageData = some img0 →
        jget params ("mode".data) (.str ("gfpgan".data)) = some (.str m) →
        apply_real_enhancement cv fp st img0 params (.str m)
          = some (f, st2, tr) →
        (enhance_image_opencv cv pil fp true st imageData params).1.scaleMetric
          = some (pyRound1 ((cv.width f : ℚ) / (cv.width img0 : ℚ)))) ∧
    (∀ (P : Type) (pil : PILPrims P) (imageData : List Char) (params : JVal)
        (p : P) (sf sh ct : ℚ),
        pil.decode imageData = some p →
        (jget params ("scaleFactor".data) (.num 2)).bind pyFloat = some sf →
        (jget params ("sharpenStrength".data) (.num (mkRat 3 2))).bind pyFloat
          = some sh →
        (jget params ("contrast".data) (.num (mkRat 6 5))).bind pyFloat
          = some ct →
        (basic_pil_enhancement pil imageData params).scaleMetric = some sf) := by
  constructor
  · intro F P cv pil fp st st2 imageData params m img0 f tr hdec hmode hrun
    simp [enhance_image_opencv, hdec, hmode, hrun, reportedFaces]
  · intro P pil imageData params p sf sh ct hdec h1 h2 h3
    obtain ⟨v1, hv1, hf1⟩ := Option.bind_eq_some.mp h1
    obtain ⟨v2, hv2, hf2⟩ := Option.bind_eq_some.mp h2
    obtain ⟨v3, hv3, hf3⟩ := Option.bind_eq_some.mp h3
    unfold basic_pil_enhancement
    simp only [hdec, hv1, hf1, hv2, hf2, hv3, hf3,
      Option.bind_eq_bind, Option.some_bind]

/-- Witness for C4: a default-parameter OpenCV run and a PIL fallback
run. -/
theorem C4_amended_witness :
    (enhance_image_opencv unitCV unitPIL unitFace true none ("d".data)
        (.obj [])).1.scaleMetric
      = some (pyRound1 ((unitCV.width () : ℚ) / (unitCV.width () : ℚ))) ∧
    (basic_pil_enhancement widthPIL ("d".data) (.obj [])).scaleMetric
      = some 2 :=
  ⟨C4_amended.1 Unit Unit unitCV unitPIL unitFace none (some 0) ("d".data)
     (.obj []) ("gfpgan".data) () ()
     [Tag.upscale Interp.lanczos4, Tag.denoise, Tag.sharpen,
      Tag.contrastStage, Tag.clahe, Tag.faceStage, Tag.colorStage, Tag.polish]
     rfl rfl (by decide),
   C4_amended.2 ℕ widthPIL ("d".data) (.obj []) 3 2 (mkRat 3 2) (mkRat 6 5)
     rfl rfl rfl rfl⟩

/-- C4 counterexample: a width-3 image with `scaleFactor = 1.5` through the
PIL fallback.  The resize stage produces width `int(3·1.5) = 4`, so the
measured ratio is 4/3 (rounding to 1.3), yet the reported metric is the
raw parameter 1.5 — not the measured ratio, and off by 1/6, far beyond the
0.05 rounding tolerance of one decimal place. -/
theorem C4_counterexample :
    (basic_pil_enhancement widthPIL ("d".data)
        (.obj [("scaleFactor".data, JVal.num (mkRat 3 2))])).scaleMetric
      = some (mkRat 3 2) ∧
    widthPIL.resize 3 (pyTrunc ((3 : ℚ) * mkRat 3 2))
        (pyTrunc ((1 : ℚ) * mkRat 3 2)) PilInterp.lanczos = 4 ∧
    pyRound1 (mkRat 4 3) = mkRat 13 10 ∧
    (mkRat 3 2 : ℚ) ≠ mkRat 13 10 ∧
    ¬(|(mkRat 3 2 : ℚ) - mkRat 4 3| ≤ mkRat 1 20) := by
  have hmul : (3 : ℚ) * mkRat 3 2 = mkRat 9 2 := by
    simp only [Rat.mkRat_eq_div]
    norm_num
  have hsum : mkRat 4 3 * 10 + mkRat 1 2 = mkRat 83 6 := by
    simp only [Rat.mkRat_eq_div]
    norm_num
  refine ⟨by decide, ?_, ?_, by decide, ?_⟩
  · rw [hmul]
    decide
  · unfold pyRound1
    rw [hsum]
    decide
  · simp only [Rat.mkRat_eq_div, abs_le]
    norm_num

/-- C7 (amended): the inline-marker payload ends at the first CRLF after
the marker; only when no CRLF occurs anywhere after the marker does it end
at the first LF; with neither, at the next `------` run; with none of the
three, at end of input (so a data-URL fragment followed directly by
end-of-input is still recovered). -/
theorem C7_amended :
    ∀ (s : List Char) (i : ℕ), pyFind s k_dataImage 0 = some i →
      (((∀ j, j ≤ s.length → i ≤ j → ¬ crlfL.isPrefixOf (s.drop j)) →
        (∀ j, j ≤ s.length → i ≤ j → ¬ lfL.isPrefixOf (s.drop j)) →
        (∀ j, j ≤ s.length → i ≤ j → ¬ dashes6.isPrefixOf (s.drop j)) →
        imageMethod1 s = some (pyStrip (s.drop i))) ∧
       (∀ e, (∀ j, j ≤ s.length → i ≤ j → ¬ crlfL.isPrefixOf (s.drop j)) →
         i ≤ e → lfL.isPrefixOf (s.drop e) →
         (∀ k, k < e → i ≤ k → ¬ lfL.isPrefixOf (s.drop k)) →
         imageMethod1 s = some (pyStrip (pySlice s i e))) ∧
       (∀ e, i ≤ e → crlfL.isPrefixOf (s.drop e) →
         (∀ k, k < e → i ≤ k → ¬ crlfL.isPrefixOf (s.drop k)) →
         imageMethod1 s = some (pyStrip (pySlice s i e))) ∧
       (∀ b, (∀ j, j ≤ s.length → i ≤ j → ¬ crlfL.isPrefixOf (s.drop j)) →
         (∀ j, j ≤ s.length → i ≤ j → ¬ lfL.isPrefixOf (s.drop j)) →
         i ≤ b → dashes6.isPrefixOf (s.drop b) →
         (∀ k, k < b → i ≤ k → ¬ dashes6.isPrefixOf (s.drop k)) →
         imageMethod1 s = some (pyStrip (pySlice s i b)))) := by
  intro s i hm
  have hi : i ≤ s.length := (pyFind_some _ _ _ _ hm).2.1
  have mkNone : ∀ sub : List Char, sub ≠ [] →
      (∀ j, j ≤ s.length → i ≤ j → ¬ sub.isPrefixOf (s.drop j)) →
      pyFind s sub i = none := by
    intro sub hne habs
    refine (pyFind_eq_none_iff s sub i hi).mpr ?_
    intro k hk hpre
    by_cases hkle : k ≤ s.length
    · exact habs k hkle hk hpre
    · exact not_pre_of_gt_length s sub hne k (by omega) hpre
  have mkSome : ∀ (sub : List Char) (e : ℕ), sub ≠ [] → i ≤ e →
      sub.isPrefixOf (s.drop e) →
      (∀ k, k < e → i ≤ k → ¬ sub.isPrefixOf (s.drop k)) →
      pyFind s sub i = some e := by
    intro sub e hne hie hocc hmin
    have hb := occ_bound s sub e hne hocc
    refine (pyFind_eq_some_iff s sub i e hi).mpr
      ⟨hie, by omega, hocc, ?_⟩
    intro k hk1 hk2
    exact hmin k hk2 hk1
  refine ⟨?_, ?_, ?_, ?_⟩
  · intro habs1 habs2 habs3
    have h1 := mkNone crlfL (by decide) habs1
    have h2 := mkNone lfL (by decide) habs2
    have h3 := mkNone dashes6 (by decide) habs3
    simp only [imageMethod1, hm, h1, h2, h3]
    rw [pySlice_to_end]
  · intro e habs1 hie hocc hmin
    have h1 := mkNone crlfL (by decide) habs1
    have h2 := mkSome lfL e (by decide) hie hocc hmin
    simp only [imageMethod1, hm, h1, h2]
  · intro e hie hocc hmin
    have h1 := mkSome crlfL e (by decide) hie hocc hmin
    simp only [imageMethod1, hm, h1]
  · intro b habs1 habs2 hib hocc hmin
    have h1 := mkNone crlfL (by decide) habs1
    have h2 := mkNone lfL (by decide) habs2
    have h3 := mkSome dashes6 b (by decide) hib hocc hmin
    simp only [imageMethod1, hm, h1, h2, h3]

/-- Witness for C7: the four termination cases at concrete bodies —
end-of-input, bare LF, CRLF, and boundary-run. -/
theorem C7_amended_witness :
    imageMethod1 ("data:image/x".data)
      = some (pyStrip (("data:image/x".data).drop 0)) ∧
    imageMethod1 ("data:image/a\nB".data)
      = some (pyStrip (pySlice ("data:image/a\nB".data) 0 12)) ∧
    imageMethod1 ("data:image/a\r\nB".data)
      = some (pyStrip (pySlice ("data:image/a\r\nB".data) 0 12)) ∧
    imageMethod1 ("data:image/ax------c".data)
      = some (pyStrip (pySlice ("data:image/ax------c".data) 0 13)) :=
  ⟨(C7_amended ("data:image/x".data) 0 (by decide)).1
     (by decide) (by decide) (by decide),
   (C7_amended ("data:image/a\nB".data) 0 (by decide)).2.1 12
     (by decide) (by decide) (by decide) (by decide),
   (C7_amended ("data:image/a\r\nB".data) 0 (by decide)).2.2.1 12
     (by decide) (by decide) (by decide),
   (C7_amended ("data:image/ax------c".data) 0 (by decide)).2.2.2 13
     (by decide) (by decide) (by decide) (by decide) (by decide)⟩

/-- The body of the C7 counterexample: a bare LF precedes the first CRLF
after the marker. -/
def c7body : List Char := "data:image/png;base64,AB\nCD\r\nEND".data

/-- C7 counterexample: in `c7body` the first line terminator after the
marker is the bare LF at index 24, but the scanner ends the payload at the
first CRLF (index 27), so the extracted payload contains the LF and does
not end at the first line terminator as the claim states. -/
theorem C7_counterexample :
    pyFind c7body k_dataImage 0 = some 0 ∧
    pyFind c7body lfL 0 = some 24 ∧
    pyFind c7body crlfL 0 = some 27 ∧
    imageMethod1 c7body = some ("data:image/png;base64,AB\nCD".data) ∧
    imageMethod1 c7body ≠ some (pyStrip (pySlice c7body 0 24)) := by
  refine ⟨by decide, by decide, by decide, by decide, by decide⟩

end FaceEnh
